import Mathlib

/-!
# canvas-mcp: the Canvas REST client and two of its tool handlers

A shallow embedding of `dist/canvasClient.js` (class `CanvasClient`),
`dist/tools/submissions.js` (the grade-submission handler) and
`dist/tools/courses.js` (the list-courses handler).

Conventions of the embedding

* JavaScript values are the JSON values plus `undefined`.  Numbers are the
  integer-valued ones (ids, scores, page numbers); fractional doubles, NaN and
  the infinities are outside the embedding.  Strings are sequences of Unicode
  code points, that is well-formed UTF-16 strings: the domain on which
  `encodeURIComponent` returns (it raises URIError on a lone surrogate).
* An object is the list of its own enumerable properties in enumeration order.
* An `async` method is the pair of the HTTP requests it issued, in order, and
  its outcome: the value the promise resolves with, or what it rejects with.
* The axios instance is a function from the request to the response it
  resolves with or the value it rejects with.
* The `while` loop of `fetchAllPages` runs on fuel; running out of fuel is an
  outcome of its own (`none`), distinct from returning and from throwing.
* A call takes a bounded number of arguments: the engine throws RangeError when a
  spread passes more. The bound depends on the engine and its stack size, so it is
  a parameter (`maxArguments`) of `fetchAllPages`, whose `results.push(...data)`
  passes a whole page as arguments.
-/

namespace CanvasMcp

/-! ## JavaScript values -/

/-- JavaScript values: JSON values and `undefined`. -/
inductive JsValue where
  | undefined
  | null
  | bool (b : Bool)
  | number (n : Int)
  | string (s : String)
  | array (items : List JsValue)
  | object (props : List (String × JsValue))

/-- Own enumerable properties of a plain object, in enumeration order. -/
abbrev Props := List (String × JsValue)

/-- What a rejected promise of the client or of a tool handler carries. All are
instances of `Error`: `error` is made by `new Error(message)` in the code,
`typeError` and `rangeError` are raised by the runtime (message text as V8 words it). -/
inductive Raised where
  | error (message : String)
  | typeError (message : String)
  | rangeError (message : String)
deriving DecidableEq, Repr

/-- Property `message` of a raised error. -/
def Raised.message : Raised → String
  | .error m => m
  | .typeError m => m
  | .rangeError m => m

namespace JsValue

/-- ToBoolean. -/
def truthy : JsValue → Bool
  | undefined => false
  | null => false
  | bool b => b
  | number n => n != 0
  | string s => s != ""
  | array _ => true
  | object _ => true

/-- Test `v === undefined`. -/
def isUndefined : JsValue → Bool
  | undefined => true
  | _ => false

/-- Test `v == null`, true of `null` and `undefined` only. -/
def isNullish : JsValue → Bool
  | undefined => true
  | null => true
  | _ => false

/-- Strict equality `a === b` where at least one side is a primitive; two
objects are compared by identity, which the embedded code never does. -/
def strictEq : JsValue → JsValue → Bool
  | undefined, undefined => true
  | null, null => true
  | bool a, bool b => a == b
  | number a, number b => a == b
  | string a, string b => a == b
  | _, _ => false

/-- Value of property `key` of an object given by its property list; `undefined`
when the object has no such property. -/
def lookupProp (props : Props) (key : String) : JsValue :=
  (props.lookup key).getD undefined

/-- Property read `v.key` on a value that is neither `null` nor `undefined`, for the
property names read by the client and the handlers (`response`, `data`, `errors`,
`anonymous`, `per_page`, `workflow_state`, `term`, `name`, `id`, `course_code`):
none of them is a property of a primitive wrapper or of an array. -/
def prop : JsValue → String → JsValue
  | object props, key => lookupProp props key
  | _, _ => undefined

/-- Property read `v.key`: a TypeError on `null` and `undefined`. -/
def get (v : JsValue) (key : String) : Except Raised JsValue :=
  match v with
  | undefined => .error (.typeError ("Cannot read properties of undefined (reading '" ++ key ++ "')"))
  | null => .error (.typeError ("Cannot read properties of null (reading '" ++ key ++ "')"))
  | v => .ok (v.prop key)

/-- Optional chaining `v?.key`. -/
def optGet (v : JsValue) (key : String) : JsValue :=
  if v.isNullish then undefined else v.prop key

/-- Assignment `obj.key = value` on a property list: an existing property keeps
its position, a new one is added last. -/
def setProp : Props → String → JsValue → Props
  | [], key, value => [(key, value)]
  | (k, v) :: rest, key, value =>
    if k = key then (k, value) :: rest else (k, v) :: setProp rest key value

mutual
/-- ToString, as applied by a template literal and by `new Error(message)`; a number
is written in decimal digits, as JavaScript writes every integer below `10^21` in
magnitude. -/
def toStr : JsValue → String
  | undefined => "undefined"
  | null => "null"
  | bool b => if b then "true" else "false"
  | number n => toString n
  | string s => s
  | array items => String.intercalate "," (toStrItems items)
  | object _ => "[object Object]"
/-- Elements of an array as `Array.prototype.join` renders them: `null` and
`undefined` give the empty string. -/
def toStrItems : List JsValue → List String
  | [] => []
  | undefined :: rest => "" :: toStrItems rest
  | null :: rest => "" :: toStrItems rest
  | v :: rest => toStr v :: toStrItems rest
end

end JsValue

/-! ## JSON.stringify -/

/-- Lower-case hexadecimal digit. -/
def hexDigitLower (d : Nat) : Char :=
  "0123456789abcdef".data.getD d '0'

/-- One code point inside a JSON string literal (QuoteJSONString). -/
def quoteJSONChar (c : Char) : List Char :=
  if c.toNat = 8 then ['\\', 'b']
  else if c.toNat = 9 then ['\\', 't']
  else if c.toNat = 10 then ['\\', 'n']
  else if c.toNat = 12 then ['\\', 'f']
  else if c.toNat = 13 then ['\\', 'r']
  else if c.toNat = 34 then ['\\', '"']
  else if c.toNat = 92 then ['\\', '\\']
  else if c.toNat < 32 then ['\\', 'u', '0', '0', hexDigitLower (c.toNat / 16), hexDigitLower (c.toNat % 16)]
  else [c]

/-- QuoteJSONString. -/
def quoteJSONString (s : String) : String :=
  ⟨'"' :: s.data.flatMap quoteJSONChar ++ ['"']⟩

/-- Wrap the serialized members of an array or object (`opening`, `closing` are the
brackets): compact when `gap` is empty, one member per line otherwise. -/
def wrapJSON (opening closing gap indent : String) (members : List String) : String :=
  if members.isEmpty then opening ++ closing
  else if gap = "" then opening ++ String.intercalate "," members ++ closing
  else
    opening ++ "\n" ++ (indent ++ gap) ++ String.intercalate (",\n" ++ (indent ++ gap)) members
      ++ "\n" ++ indent ++ closing

mutual
/-- SerializeJSONProperty with the given `gap` and current `indent`; `none` is the
result `undefined`. -/
def serializeJSON (gap indent : String) : JsValue → Option String
  | .undefined => none
  | .null => some "null"
  | .bool b => some (if b then "true" else "false")
  | .number n => some (toString n)
  | .string s => some (quoteJSONString s)
  | .array items => some (wrapJSON "[" "]" gap indent (serializeJSONItems gap (indent ++ gap) items))
  | .object props => some (wrapJSON "\x7b" "\x7d" gap indent (serializeJSONMembers gap (indent ++ gap) props))
/-- Elements of an array: `undefined` is written `null`. -/
def serializeJSONItems (gap indent : String) : List JsValue → List String
  | [] => []
  | v :: rest => (serializeJSON gap indent v).getD "null" :: serializeJSONItems gap indent rest
/-- Members of an object: a property whose value is `undefined` is left out. -/
def serializeJSONMembers (gap indent : String) : List (String × JsValue) → List String
  | [] => []
  | (k, v) :: rest =>
    match serializeJSON gap indent v with
    | none => serializeJSONMembers gap indent rest
    | some str =>
      (quoteJSONString k ++ ":" ++ (if gap = "" then "" else " ") ++ str)
        :: serializeJSONMembers gap indent rest
end

/-- Call `JSON.stringify(value)`. -/
def JSON.stringify (value : JsValue) : Option String :=
  serializeJSON "" "" value

/-- Call `JSON.stringify(value, null, 2)`. -/
def JSON.stringifyPretty (value : JsValue) : Option String :=
  serializeJSON "  " "" value

/-- A string or `undefined`, as a value. -/
def optString : Option String → JsValue
  | none => .undefined
  | some s => .string s

/-! ## encodeURIComponent -/

/-- Characters that `encodeURIComponent` leaves as they are: ASCII letters, digits
and `- _ . ! ~ * ' ( )`. -/
def uriUnreserved (c : Char) : Bool :=
  c.isAlphanum || "-_.!~*\x27()".data.contains c

/-- UTF-8 encoding of a code point. -/
def utf8Bytes (n : Nat) : List Nat :=
  if n < 0x80 then [n]
  else if n < 0x800 then [0xC0 + n / 64, 0x80 + n % 64]
  else if n < 0x10000 then [0xE0 + n / 4096, 0x80 + n / 64 % 64, 0x80 + n % 64]
  else [0xF0 + n / 262144, 0x80 + n / 4096 % 64, 0x80 + n / 64 % 64, 0x80 + n % 64]

/-- Upper-case hexadecimal digit. -/
def hexDigitUpper (d : Nat) : Char :=
  "0123456789ABCDEF".data.getD d '0'

/-- Escape `%XX` of one byte. -/
def percentByte (b : Nat) : List Char :=
  ['%', hexDigitUpper (b / 16), hexDigitUpper (b % 16)]

/-- One code point as `encodeURIComponent` writes it. -/
def encodeURIChar (c : Char) : List Char :=
  if uriUnreserved c then [c] else (utf8Bytes c.toNat).flatMap percentByte

/-- Built-in `encodeURIComponent` on a well-formed string. -/
def encodeURIComponent (s : String) : String :=
  ⟨s.data.flatMap encodeURIChar⟩

/-! ## The axios instance -/

/-- HTTP method of a request. -/
inductive Method where
  | GET
  | POST
  | PUT
  | DELETE
deriving DecidableEq, Repr

/-- One call of the axios instance: `axios.get(url, { params })`,
`axios.post(url, data, { params })` and so on; `data` is `undefined` for the
methods that take no body. -/
structure Request where
  method : Method
  url : String
  data : JsValue
  params : Props

/-- Response object an axios call resolves with; the client reads only `data`. -/
structure AxiosResponse where
  data : JsValue

/-- A value caught by `catch (error)`: an instance of `Error` with its message and
its further own properties (an AxiosError carries `response`, `code`, ...), or any
other thrown value. -/
inductive Thrown where
  | value (v : JsValue)
  | error (message : String) (props : Props)

/-- The axios instance created in the constructor, as the outcome of each request. -/
abbrev Axios := Request → Except Thrown AxiosResponse

/-- An `async` call that has settled: the requests it issued and its outcome. -/
structure Run (α : Type) where
  requests : List Request
  outcome : Except Raised α

/-- Property read `error.key` on a caught value. -/
def Thrown.get : Thrown → String → Except Raised JsValue
  | .value v, key => v.get key
  | .error message props, key =>
    .ok (if key = "message" then .string message else JsValue.lookupProp props key)

/-- Test `error instanceof Error`. -/
def Thrown.instanceofError : Thrown → Bool
  | .value _ => false
  | .error _ _ => true

/-- Expression `new Error(message)`: the message is ToString of the argument, and
empty when the argument is `undefined`. -/
def newError (message : JsValue) : Raised :=
  .error (if message.isUndefined then "" else message.toStr)

/-- A parameter default `param = fallback`: it applies when the argument is `undefined`. -/
def defaultArg (arg fallback : JsValue) : JsValue :=
  if arg.isUndefined then fallback else arg

/-- The static methods of `DataAnonymizer` (module `anonymizer.js`) that the client
calls, taken as given: each returns a value or throws. -/
structure DataAnonymizer where
  anonymizeAssignments : JsValue → Except Raised JsValue
  anonymizeUsers : JsValue → Except Raised JsValue
  anonymizeSubmissions : JsValue → Except Raised JsValue

namespace CanvasClient

/-- Method `handleError(error)`. Every path ends in a `throw`, which is the
`Except.error` result; `Except.ok ()` would be a normal return. -/
def handleError (error : Thrown) : Except Raised Unit :=
  match error.get "response" with
  | .error raised => .error raised
  | .ok response =>
    let errors := (response.optGet "data").optGet "errors"
    if errors.truthy then
      .error (newError (optString (JSON.stringify errors)))
    else if error.instanceofError then
      match error.get "message" with
      | .error raised => .error raised
      | .ok message => .error (newError message)
    else
      .error (newError (.string "Unknown error occurred in CanvasClient"))

/-- The `try`/`catch` shared by `get`, `post`, `put` and `delete`: the response's
`data` on success; on failure `handleError(error)` runs, and were it to return the
method would return `undefined`. -/
def send (axios : Axios) (request : Request) : Run JsValue :=
  ⟨[request],
    match axios request with
    | .ok response => .ok response.data
    | .error error =>
      match handleError error with
      | .error raised => .error raised
      | .ok () => .ok .undefined⟩

/-- Method `get(url, params = {})`. -/
def get (axios : Axios) (url : String) (params : Props) : Run JsValue :=
  send axios ⟨.GET, url, .undefined, params⟩

/-- Method `post(url, data = {}, params = {})`. -/
def post (axios : Axios) (url : String) (data : JsValue) (params : Props) : Run JsValue :=
  send axios ⟨.POST, url, defaultArg data (.object []), params⟩

/-- Method `put(url, data = {}, params = {})`. -/
def put (axios : Axios) (url : String) (data : JsValue) (params : Props) : Run JsValue :=
  send axios ⟨.PUT, url, defaultArg data (.object []), params⟩

/-- Method `delete(url, params = {})`. -/
def delete (axios : Axios) (url : String) (params : Props) : Run JsValue :=
  send axios ⟨.DELETE, url, .undefined, params⟩

/-! ### Pagination -/

/-- Expression `params.per_page || 100`. -/
def perPageOf (params : Props) : JsValue :=
  if (JsValue.lookupProp params "per_page").truthy then JsValue.lookupProp params "per_page"
  else .number 100

/-- Object literal `{ ...params, page, per_page }`. -/
def pageParams (params : Props) (page : Nat) (per_page : JsValue) : Props :=
  JsValue.setProp (JsValue.setProp params "page" (.number page)) "per_page" per_page

/-- Number of UTF-16 code units of a string, its `length`. -/
def utf16Length (s : String) : Nat :=
  (s.data.map (fun c => if c.toNat < 0x10000 then 1 else 2)).sum

/-- Arguments of a call taken from a spread: RangeError when there are more than
the engine accepts in one call. -/
def spreadArguments (maxArguments : Nat) (items : List JsValue) : Except Raised (List JsValue) :=
  if items.length ≤ maxArguments then .ok items
  else .error (.rangeError "Maximum call stack size exceeded")

/-- Elements that the spread `...data` passes to `results.push` as arguments: those
of an array, the code points of a string; any other value of the embedding is not
iterable. -/
def spreadItems (maxArguments : Nat) : JsValue → Except Raised (List JsValue)
  | .array items => spreadArguments maxArguments items
  | .string s => spreadArguments maxArguments (s.data.map (fun c => .string (String.singleton c)))
  | _ => .error (.typeError "Spread syntax requires ...iterable[Symbol.iterator] to be a function")

/-- Expression `data.length` on a value that was spread. -/
def lengthOf : JsValue → JsValue
  | .array items => .number items.length
  | .string s => .number (utf16Length s)
  | v => v.prop "length"

/-- Outcome of `fetchAllPages`: the requests issued, and `none` when the loop is
still running after the fuel is spent. -/
structure PagedRun where
  requests : List Request
  outcome : Option (Except Raised (List JsValue))

/-- The `while (hasMore)` loop of `fetchAllPages`, one iteration per unit of fuel,
entered with `hasMore` true. The arguments are the loop variables `results` and
`page` and the requests issued so far; `page += 1` is exact on the page numbers a run
can reach (below `2^53`). -/
def fetchAllPagesLoop (maxArguments : Nat) (axios : Axios) (url : String) (params : Props)
    (per_page : JsValue) : Nat → List JsValue → Nat → List Request → PagedRun
  | 0, _, _, requests => ⟨requests, none⟩
  | fuel + 1, results, page, requests =>
    let call := get axios url (pageParams params page per_page)
    match call.outcome with
    | .error raised => ⟨requests ++ call.requests, some (.error raised)⟩
    | .ok data =>
      match spreadItems maxArguments data with
      | .error raised => ⟨requests ++ call.requests, some (.error raised)⟩
      | .ok items =>
        if (lengthOf data).strictEq per_page then
          fetchAllPagesLoop maxArguments axios url params per_page fuel (results ++ items)
            (page + 1) (requests ++ call.requests)
        else
          ⟨requests ++ call.requests, some (.ok (results ++ items))⟩

/-- Method `fetchAllPages(url, params = {})`, on an engine whose calls take at most
`maxArguments` arguments. -/
def fetchAllPages (maxArguments : Nat) (axios : Axios) (fuel : Nat) (url : String)
    (params : Props) : PagedRun :=
  fetchAllPagesLoop maxArguments axios url params (perPageOf params) fuel [] 1 []

/-! ### Domain operations -/

/-- Statement `return options.anonymous !== false ? anonymize(data) : data` after
`const data = await this.get(...)`. -/
def returnAnonymized (options : Props) (anonymize : JsValue → Except Raised JsValue)
    (call : Run JsValue) : Run JsValue :=
  ⟨call.requests,
    match call.outcome with
    | .error raised => .error raised
    | .ok data =>
      if !(JsValue.lookupProp options "anonymous").strictEq (.bool false) then anonymize data
      else .ok data⟩

/-- Method `listCourses(params = {})`. -/
def listCourses (axios : Axios) (params : Props) : Run JsValue :=
  get axios "/api/v1/courses" params

/-- Method `postAnnouncement(courseId, data)`. -/
def postAnnouncement (axios : Axios) (courseId : String) (data : JsValue) : Run JsValue :=
  post axios ("/api/v1/courses/" ++ courseId ++ "/discussion_topics") data []

/-- Method `listCourseAssignments(courseId, params = {}, options = {})`. -/
def listCourseAssignments (anonymizer : DataAnonymizer) (axios : Axios) (courseId : String)
    (params options : Props) : Run JsValue :=
  returnAnonymized options anonymizer.anonymizeAssignments
    (get axios ("/api/v1/courses/" ++ courseId ++ "/assignments") params)

/-- Method `getAssignment(courseId, assignmentId)`. -/
def getAssignment (axios : Axios) (courseId assignmentId : String) : Run JsValue :=
  get axios ("/api/v1/courses/" ++ courseId ++ "/assignments/" ++ assignmentId) []

/-- Method `createAssignment(courseId, data)`. -/
def createAssignment (axios : Axios) (courseId : String) (data : JsValue) : Run JsValue :=
  post axios ("/api/v1/courses/" ++ courseId ++ "/assignments") data []

/-- Method `updateAssignment(courseId, assignmentId, data)`. -/
def updateAssignment (axios : Axios) (courseId assignmentId : String) (data : JsValue) :
    Run JsValue :=
  put axios ("/api/v1/courses/" ++ courseId ++ "/assignments/" ++ assignmentId) data []

/-- Method `listAssignmentGroups(courseId)`. -/
def listAssignmentGroups (axios : Axios) (courseId : String) : Run JsValue :=
  get axios ("/api/v1/courses/" ++ courseId ++ "/assignment_groups") []

/-- Method `createAssignmentGroup(courseId, data)`. -/
def createAssignmentGroup (axios : Axios) (courseId : String) (data : JsValue) : Run JsValue :=
  post axios ("/api/v1/courses/" ++ courseId ++ "/assignment_groups") data []

/-- Method `listModules(courseId, params = {})`. -/
def listModules (axios : Axios) (courseId : String) (params : Props) : Run JsValue :=
  get axios ("/api/v1/courses/" ++ courseId ++ "/modules") params

/-- Method `listModuleItems(courseId, moduleId, params = {})`. -/
def listModuleItems (axios : Axios) (courseId moduleId : String) (params : Props) : Run JsValue :=
  get axios ("/api/v1/courses/" ++ courseId ++ "/modules/" ++ moduleId ++ "/items") params

/-- Method `getModule(courseId, moduleId)`. -/
def getModule (axios : Axios) (courseId moduleId : String) : Run JsValue :=
  get axios ("/api/v1/courses/" ++ courseId ++ "/modules/" ++ moduleId) []

/-- Method `updateModulePublish(courseId, moduleId, data)`. -/
def updateModulePublish (axios : Axios) (courseId moduleId : String) (data : JsValue) :
    Run JsValue :=
  put axios ("/api/v1/courses/" ++ courseId ++ "/modules/" ++ moduleId) data []

/-- Method `listPages(courseId, params = {})`. -/
def listPages (axios : Axios) (courseId : String) (params : Props) : Run JsValue :=
  get axios ("/api/v1/courses/" ++ courseId ++ "/pages") params

/-- Method `getPage(courseId, pageUrl)`. -/
def getPage (axios : Axios) (courseId pageUrl : String) : Run JsValue :=
  get axios ("/api/v1/courses/" ++ courseId ++ "/pages/" ++ encodeURIComponent pageUrl) []

/-- Method `listPageRevisions(courseId, pageUrl)`. -/
def listPageRevisions (axios : Axios) (courseId pageUrl : String) : Run JsValue :=
  get axios
    ("/api/v1/courses/" ++ courseId ++ "/pages/" ++ encodeURIComponent pageUrl ++ "/revisions") []

/-- Method `revertPageRevision(courseId, pageUrl, revisionId)`. -/
def revertPageRevision (axios : Axios) (courseId pageUrl revisionId : String) : Run JsValue :=
  post axios
    ("/api/v1/courses/" ++ courseId ++ "/pages/" ++ encodeURIComponent pageUrl ++ "/revisions/"
      ++ revisionId ++ "/revert") .undefined []

/-- Method `updateOrCreatePage(courseId, pageUrl, data)`. -/
def updateOrCreatePage (axios : Axios) (courseId pageUrl : String) (data : JsValue) : Run JsValue :=
  put axios ("/api/v1/courses/" ++ courseId ++ "/pages/" ++ encodeURIComponent pageUrl) data []

/-- Method `listRubrics(courseId)`. -/
def listRubrics (axios : Axios) (courseId : String) : Run JsValue :=
  get axios ("/api/v1/courses/" ++ courseId ++ "/rubrics") []

/-- Method `getRubricStatistics(courseId, assignmentId, params = {})`. -/
def getRubricStatistics (axios : Axios) (courseId assignmentId : String) (params : Props) :
    Run JsValue :=
  get axios ("/api/v1/courses/" ++ courseId ++ "/assignments/" ++ assignmentId) params

/-- Method `listRubricAssessments(courseId, assignmentId, params = {}, options = {})`. -/
def listRubricAssessments (anonymizer : DataAnonymizer) (axios : Axios)
    (courseId assignmentId : String) (params options : Props) : Run JsValue :=
  returnAnonymized options anonymizer.anonymizeSubmissions
    (get axios ("/api/v1/courses/" ++ courseId ++ "/assignments/" ++ assignmentId ++ "/submissions")
      params)

/-- Method `attachRubricToAssignment(courseId, assignmentId, rubricId)`. -/
def attachRubricToAssignment (axios : Axios) (courseId assignmentId rubricId : String) :
    Run JsValue :=
  put axios
    ("/api/v1/courses/" ++ courseId ++ "/assignments/" ++ assignmentId ++ "?rubric_id="
      ++ encodeURIComponent rubricId) .undefined []

/-- Method `listStudents(courseId, params = {}, options = {})`. -/
def listStudents (anonymizer : DataAnonymizer) (axios : Axios) (courseId : String)
    (params options : Props) : Run JsValue :=
  returnAnonymized options anonymizer.anonymizeUsers
    (get axios ("/api/v1/courses/" ++ courseId ++ "/users") params)

/-- Method `listSections(courseId, params = {})`. -/
def listSections (axios : Axios) (courseId : String) (params : Props) : Run JsValue :=
  get axios ("/api/v1/courses/" ++ courseId ++ "/sections") params

/-- Method `getSection(courseId, sectionId)`. -/
def getSection (axios : Axios) (courseId sectionId : String) : Run JsValue :=
  get axios ("/api/v1/courses/" ++ courseId ++ "/sections/" ++ sectionId) []

/-- Method `listSectionAssignmentSubmissions(sectionId, assignmentId, params = {}, options = {})`. -/
def listSectionAssignmentSubmissions (anonymizer : DataAnonymizer) (axios : Axios)
    (sectionId assignmentId : String) (params options : Props) : Run JsValue :=
  returnAnonymized options anonymizer.anonymizeSubmissions
    (get axios ("/api/v1/sections/" ++ sectionId ++ "/assignments/" ++ assignmentId ++ "/submissions")
      params)

/-- Method `listAssignmentSubmissions(courseId, assignmentId, params = {}, options = {})`. -/
def listAssignmentSubmissions (anonymizer : DataAnonymizer) (axios : Axios)
    (courseId assignmentId : String) (params options : Props) : Run JsValue :=
  returnAnonymized options anonymizer.anonymizeSubmissions
    (get axios ("/api/v1/courses/" ++ courseId ++ "/assignments/" ++ assignmentId ++ "/submissions")
      params)

/-- Method `gradeSubmission(courseId, assignmentId, userId, data)`. -/
def gradeSubmission (axios : Axios) (courseId assignmentId userId : String) (data : JsValue) :
    Run JsValue :=
  put axios
    ("/api/v1/courses/" ++ courseId ++ "/assignments/" ++ assignmentId ++ "/submissions/" ++ userId)
    data []

end CanvasClient

/-! ## Tool handlers -/

/-- Result `{ content: [{ type: "text", text }] }` of a tool handler. -/
def textContent (text : JsValue) : JsValue :=
  .object [("content", .array [.object [("type", .string "text"), ("text", text)]])]

/-- The `catch` block of a tool handler. Whatever the embedded client raises is an
instance of `Error`, so the handler throws `new Error(context + error.message)`. -/
def rethrow (context : String) (raised : Raised) : Raised :=
  .error (context ++ raised.message)

/-- Handler of the tool `grade-submission` (`registerSubmissionTools`). -/
def gradeSubmissionHandler (axios : Axios) (courseId assignmentId userId : String)
    (posted_grade score rubric_assessment comment : JsValue) : Run JsValue :=
  let payload : Props := []
  let payload :=
    if !posted_grade.isUndefined then JsValue.setProp payload "posted_grade" posted_grade
    else payload
  let payload := if !score.isUndefined then JsValue.setProp payload "score" score else payload
  let payload :=
    if !rubric_assessment.isUndefined then
      JsValue.setProp payload "rubric_assessment" rubric_assessment
    else payload
  let payload :=
    if !comment.isUndefined then
      JsValue.setProp payload "comment" (.object [("text_comment", comment)])
    else payload
  let call := CanvasClient.gradeSubmission axios courseId assignmentId userId (.object payload)
  ⟨call.requests,
    match call.outcome with
    | .ok response => .ok (textContent (optString (JSON.stringifyPretty response)))
    | .error raised => .error (rethrow "Failed to grade submission: " raised)⟩

/-- Receiver check of `courses.filter(...)`: only an array has the method. -/
def filterReceiver : JsValue → Except Raised (List JsValue)
  | .array items => .ok items
  | .undefined => .error (.typeError "Cannot read properties of undefined (reading \x27filter\x27)")
  | .null => .error (.typeError "Cannot read properties of null (reading \x27filter\x27)")
  | _ => .error (.typeError "courses.filter is not a function")

/-- Callback `course => course.workflow_state === 'available'`. -/
def isAvailable (course : JsValue) : Except Raised Bool :=
  match course.get "workflow_state" with
  | .error raised => .error raised
  | .ok state => .ok (state.strictEq (.string "available"))

/-- The call `.filter(course => course.workflow_state === 'available')`, element by element. -/
def filterAvailable : List JsValue → Except Raised (List JsValue)
  | [] => .ok []
  | course :: rest =>
    match isAvailable course with
    | .error raised => .error raised
    | .ok keep =>
      match filterAvailable rest with
      | .error raised => .error raised
      | .ok kept => .ok (if keep then course :: kept else kept)

/-- Callback of `.map`: the text block of one course. -/
def formatCourse (course : JsValue) : Except Raised String :=
  match course.get "term" with
  | .error raised => .error raised
  | .ok term =>
    match (if term.truthy then
        (match term.get "name" with
          | .error raised => .error raised
          | .ok name => .ok (" (" ++ name.toStr ++ ")"))
      else (.ok "" : Except Raised String)) with
    | .error raised => .error raised
    | .ok termInfo =>
      match course.get "name", course.get "id", course.get "course_code" with
      | .ok name, .ok id, .ok code =>
        .ok ("Course: " ++ name.toStr ++ termInfo ++ "\nID: " ++ id.toStr ++ "\nCode: "
          ++ code.toStr ++ "\n---")
      | .error raised, _, _ => .error raised
      | _, .error raised, _ => .error raised
      | _, _, .error raised => .error raised

/-- The call `.map(course => ...)`, element by element. -/
def mapFormat : List JsValue → Except Raised (List String)
  | [] => .ok []
  | course :: rest =>
    match formatCourse course with
    | .error raised => .error raised
    | .ok block =>
      match mapFormat rest with
      | .error raised => .error raised
      | .ok blocks => .ok (block :: blocks)

/-- The `try` block of the `list-courses` handler after `listCourses` resolved with
`courses`. -/
def formatCourses (courses : JsValue) : Except Raised JsValue :=
  match filterReceiver courses with
  | .error raised => .error raised
  | .ok items =>
    match filterAvailable items with
    | .error raised => .error raised
    | .ok kept =>
      match mapFormat kept with
      | .error raised => .error raised
      | .ok blocks =>
        let formattedCourses := String.intercalate "\n" blocks
        .ok (textContent (.string
          (if formattedCourses != "" then "Available Courses:\n\n" ++ formattedCourses
           else "No active courses found.")))

/-- Handler of the tool `list-courses` (`registerCourseTools`). -/
def listCoursesHandler (axios : Axios) : Run JsValue :=
  let call := CanvasClient.listCourses axios
    [("enrollment_state", .string "active"), ("state", .array [.string "available"]),
     ("per_page", .number 100), ("include", .array [.string "term"])]
  ⟨call.requests,
    match call.outcome with
    | .error raised => .error (rethrow "Failed to fetch courses: " raised)
    | .ok courses =>
      match formatCourses courses with
      | .error raised => .error (rethrow "Failed to fetch courses: " raised)
      | .ok result => .ok result⟩

/-! ## Vocabulary of the statements -/

/-- The request the loop of `fetchAllPages` builds for page number `page`. -/
def pageRequest (url : String) (params : Props) (per_page : JsValue) (page : Nat) : Request :=
  ⟨.GET, url, .undefined, CanvasClient.pageParams params page per_page⟩

/-- What the server sees of a listing request: method, path, and the query
parameters `page` and `per_page`. -/
def requestSummary (request : Request) : Method × String × JsValue × JsValue :=
  (request.method, request.url, JsValue.lookupProp request.params "page",
    JsValue.lookupProp request.params "per_page")

/-- Total number of items of the pages `1 .. count` of a listing. -/
def totalItems (pages : Nat → List JsValue) (count : Nat) : Nat :=
  ((List.range' 1 count).map (fun i => (pages i).length)).sum

/-- Pages of a sample listing of 103 items served at the default page size of 100. -/
def hundredPages : Nat → List JsValue
  | 1 => (List.range 100).map (fun i : Nat => JsValue.number (i : Int))
  | 2 => [.number 100, .number 101, .number 102]
  | _ => []

/-- Pages of a sample listing of four items served two at a time: the third page
is empty. -/
def evenPages : Nat → List JsValue
  | 1 => [.string "a", .string "b"]
  | 2 => [.string "c", .string "d"]
  | _ => []

/-- A page of 200000 items. -/
def hugePage : List JsValue :=
  List.replicate 200000 .null

/-- Pages of a listing of 200000 items that the server sends in one page. -/
def hugePages : Nat → List JsValue
  | 1 => hugePage
  | _ => []

/-- A server of pages of `per_page` items: it answers a GET that asks for page `i`
at this page size with `pages i`, and rejects any other request with status 400. -/
def pagedAxios (per_page : Nat) (pages : Nat → List JsValue) : Axios := fun request =>
  match request.method, JsValue.lookupProp request.params "page",
    JsValue.lookupProp request.params "per_page" with
  | .GET, .number page, .number size =>
    if size = (per_page : Int) then .ok ⟨.array (pages page.toNat)⟩
    else .error (.error "Request failed with status code 400" [])
  | _, _, _ => .error (.error "Request failed with status code 400" [])

/-- The anonymization policy for an operation whose Transport call returned `d`:
with `options.anonymous` false the result is `d` itself, with `options.anonymous`
true or not supplied it is what the anonymizer makes of `d`. -/
def AnonymizationPolicy (options : Props) (anonymize : JsValue → Except Raised JsValue)
    (d : JsValue) (result : Except Raised JsValue) : Prop :=
  (JsValue.lookupProp options "anonymous" = .bool false → result = .ok d)
  ∧ (JsValue.lookupProp options "anonymous" = .bool true
      ∨ JsValue.lookupProp options "anonymous" = .undefined → result = anonymize d)

/-- A sample anonymizer: it wraps what it is given, so that its use shows. -/
def sampleAnonymizer : DataAnonymizer where
  anonymizeAssignments := fun v => .ok (.object [("anonymizedAssignments", v)])
  anonymizeUsers := fun v => .ok (.object [("anonymizedUsers", v)])
  anonymizeSubmissions := fun v => .ok (.object [("anonymizedSubmissions", v)])

/-- A sample raw response: one record with a name. -/
def sampleRecords : JsValue :=
  .array [.object [("id", .number 7), ("name", .string "Ada")]]

/-- The structured error body of a failure: the value of the property `errors` of
the object `error.response.data`, when there is one. -/
def errorBody (error : Thrown) : Option JsValue :=
  match error.get "response" with
  | .ok (.object response) =>
    match JsValue.lookupProp response "data" with
    | .object body => body.lookup "errors"
    | _ => none
  | _ => none

/-- The failure axios reports for a response of status 422 whose payload is `data`. -/
def axiosError (data : JsValue) : Thrown :=
  .error "Request failed with status code 422"
    [("code", .string "ERR_BAD_REQUEST"),
     ("response", .object [("status", .number 422), ("data", data)])]

/-- A network failure: an Error with a message and no response. -/
def networkError : Thrown :=
  .error "connect ECONNREFUSED 127.0.0.1:443" [("code", .string "ECONNREFUSED")]

/-- A structured error body as Canvas sends it: a list of error records. -/
def sampleErrors : JsValue :=
  .array [.object [("message", .string "title is too long")]]

/-- An axios instance whose every call fails with `error`. -/
def failingAxios (error : Thrown) : Axios := fun _ => .error error

/-- The URLs of the requests a call issued. -/
def requestUrls {α : Type} (run : Run α) : List String :=
  run.requests.map (fun request => request.url)

/-- Number of `/` separators of a URL, one per path segment. -/
def slashCount (url : String) : Nat :=
  url.data.count '/'

/-- The identifier consists of characters that percent-encoding leaves alone. -/
def unreservedOnly (identifier : String) : Bool :=
  identifier.data.all uriUnreserved

/-- The URL requested by each Domain Operation of `CanvasClient`, in the order of
the class. -/
def domainOperationUrls (anonymizer : DataAnonymizer) (axios : Axios)
    (courseId assignmentId moduleId sectionId userId revisionId pageUrl rubricId : String)
    (params options : Props) (data : JsValue) : List (List String) :=
  [requestUrls (CanvasClient.listCourses axios params),
   requestUrls (CanvasClient.postAnnouncement axios courseId data),
   requestUrls (CanvasClient.listCourseAssignments anonymizer axios courseId params options),
   requestUrls (CanvasClient.getAssignment axios courseId assignmentId),
   requestUrls (CanvasClient.createAssignment axios courseId data),
   requestUrls (CanvasClient.updateAssignment axios courseId assignmentId data),
   requestUrls (CanvasClient.listAssignmentGroups axios courseId),
   requestUrls (CanvasClient.createAssignmentGroup axios courseId data),
   requestUrls (CanvasClient.listModules axios courseId params),
   requestUrls (CanvasClient.listModuleItems axios courseId moduleId params),
   requestUrls (CanvasClient.getModule axios courseId moduleId),
   requestUrls (CanvasClient.updateModulePublish axios courseId moduleId data),
   requestUrls (CanvasClient.listPages axios courseId params),
   requestUrls (CanvasClient.getPage axios courseId pageUrl),
   requestUrls (CanvasClient.listPageRevisions axios courseId pageUrl),
   requestUrls (CanvasClient.revertPageRevision axios courseId pageUrl revisionId),
   requestUrls (CanvasClient.updateOrCreatePage axios courseId pageUrl data),
   requestUrls (CanvasClient.listRubrics axios courseId),
   requestUrls (CanvasClient.getRubricStatistics axios courseId assignmentId params),
   requestUrls (CanvasClient.listRubricAssessments anonymizer axios courseId assignmentId params
     options),
   requestUrls (CanvasClient.attachRubricToAssignment axios courseId assignmentId rubricId),
   requestUrls (CanvasClient.listStudents anonymizer axios courseId params options),
   requestUrls (CanvasClient.listSections axios courseId params),
   requestUrls (CanvasClient.getSection axios courseId sectionId),
   requestUrls (CanvasClient.listSectionAssignmentSubmissions anonymizer axios sectionId
     assignmentId params options),
   requestUrls (CanvasClient.listAssignmentSubmissions anonymizer axios courseId assignmentId
     params options),
   requestUrls (CanvasClient.gradeSubmission axios courseId assignmentId userId data)]

/-- The path templates of the Domain Operations, in the order of the class, with every
identifier of a path segment written by `render` (the page identifier and the rubric
id of the query string are percent-encoded in any case). With `render` the
percent-encoding, these are the paths as the spec describes them. -/
def pathTemplates (render : String → String)
    (courseId assignmentId moduleId sectionId userId revisionId pageUrl rubricId : String) :
    List (List String) :=
  let c := render courseId
  let a := render assignmentId
  let m := render moduleId
  let sec := render sectionId
  let u := render userId
  let r := render revisionId
  let p := encodeURIComponent pageUrl
  [["/api/v1/courses"],
   ["/api/v1/courses/" ++ c ++ "/discussion_topics"],
   ["/api/v1/courses/" ++ c ++ "/assignments"],
   ["/api/v1/courses/" ++ c ++ "/assignments/" ++ a],
   ["/api/v1/courses/" ++ c ++ "/assignments"],
   ["/api/v1/courses/" ++ c ++ "/assignments/" ++ a],
   ["/api/v1/courses/" ++ c ++ "/assignment_groups"],
   ["/api/v1/courses/" ++ c ++ "/assignment_groups"],
   ["/api/v1/courses/" ++ c ++ "/modules"],
   ["/api/v1/courses/" ++ c ++ "/modules/" ++ m ++ "/items"],
   ["/api/v1/courses/" ++ c ++ "/modules/" ++ m],
   ["/api/v1/courses/" ++ c ++ "/modules/" ++ m],
   ["/api/v1/courses/" ++ c ++ "/pages"],
   ["/api/v1/courses/" ++ c ++ "/pages/" ++ p],
   ["/api/v1/courses/" ++ c ++ "/pages/" ++ p ++ "/revisions"],
   ["/api/v1/courses/" ++ c ++ "/pages/" ++ p ++ "/revisions/" ++ r ++ "/revert"],
   ["/api/v1/courses/" ++ c ++ "/pages/" ++ p],
   ["/api/v1/courses/" ++ c ++ "/rubrics"],
   ["/api/v1/courses/" ++ c ++ "/assignments/" ++ a],
   ["/api/v1/courses/" ++ c ++ "/assignments/" ++ a ++ "/submissions"],
   ["/api/v1/courses/" ++ c ++ "/assignments/" ++ a ++ "?rubric_id="
      ++ encodeURIComponent rubricId],
   ["/api/v1/courses/" ++ c ++ "/users"],
   ["/api/v1/courses/" ++ c ++ "/sections"],
   ["/api/v1/courses/" ++ c ++ "/sections/" ++ sec],
   ["/api/v1/sections/" ++ sec ++ "/assignments/" ++ a ++ "/submissions"],
   ["/api/v1/courses/" ++ c ++ "/assignments/" ++ a ++ "/submissions"],
   ["/api/v1/courses/" ++ c ++ "/assignments/" ++ a ++ "/submissions/" ++ u]]

/-- The request body for the supplied arguments of `grade-submission`: one key per
argument that is not `undefined`, in the order `posted_grade`, `score`,
`rubric_assessment`, `comment`; the comment is wrapped as `{text_comment: comment}`. -/
def suppliedBody (posted_grade score rubric_assessment comment : JsValue) : Props :=
  (if posted_grade.isUndefined then [] else [("posted_grade", posted_grade)])
    ++ (if score.isUndefined then [] else [("score", score)])
    ++ (if rubric_assessment.isUndefined then [] else [("rubric_assessment", rubric_assessment)])
    ++ (if comment.isUndefined then [] else [("comment", .object [("text_comment", comment)])])

/-- The query of the `list-courses` tool. -/
def listCoursesQuery : Props :=
  [("enrollment_state", .string "active"), ("state", .array [.string "available"]),
   ("per_page", .number 100), ("include", .array [.string "term"])]

/-- The course is active: its `workflow_state` is the string `available`. -/
def isActive (course : JsValue) : Bool :=
  (course.prop "workflow_state").strictEq (.string "available")

/-- The course has a term to show: its property `term` is truthy. -/
def hasTerm (course : JsValue) : Bool :=
  (course.prop "term").truthy

/-- The rendering of a course in the spec's words,
`Course: <name> (<term>)\nID: <id>\nCode: <code>`. -/
def specBlock (name term id code : String) : String :=
  "Course: " ++ name ++ (" (" ++ term ++ ")") ++ "\nID: " ++ id ++ "\nCode: " ++ code

/-- The rendering of a course that shows no term, `Course: <name>\nID: <id>\nCode: <code>`. -/
def termlessBlock (name id code : String) : String :=
  "Course: " ++ name ++ "" ++ "\nID: " ++ id ++ "\nCode: " ++ code

/-- The text block of a course in the output: the spec's rendering when the course
has a term, the rendering without `(<term>)` when it has none, and a closing line `---`. -/
def courseBlock (course : JsValue) : String :=
  (if hasTerm course then
    specBlock (course.prop "name").toStr ((course.prop "term").prop "name").toStr
      (course.prop "id").toStr (course.prop "course_code").toStr
  else
    termlessBlock (course.prop "name").toStr (course.prop "id").toStr
      (course.prop "course_code").toStr) ++ "\n---"

/-- An active course of the Fall term. -/
def fallCourse : JsValue :=
  .object [("id", .number 1), ("name", .string "Intro to Logic"), ("course_code", .string "PHIL-1"),
    ("workflow_state", .string "available"), ("term", .object [("name", .string "Fall")])]

/-- A concluded course. -/
def concludedCourse : JsValue :=
  .object [("id", .number 2), ("name", .string "Ethics"), ("course_code", .string "PHIL-2"),
    ("workflow_state", .string "completed"), ("term", .object [("name", .string "Spring")])]

/-- An active course that carries no term. -/
def termlessCourse : JsValue :=
  .object [("id", .number 3), ("name", .string "Algebra"), ("course_code", .string "MATH-3"),
    ("workflow_state", .string "available")]

/-! ## Pagination -/

section Pagination

open CanvasClient JsValue

theorem lookupProp_setProp_same (props : Props) (key : String) (value : JsValue) :
    lookupProp (setProp props key value) key = value := by
  induction props with
  | nil => simp [setProp, lookupProp, List.lookup]
  | cons head rest ih =>
    obtain ⟨k, v⟩ := head
    by_cases h : k = key
    · simp [setProp, h, lookupProp, List.lookup]
    · have h2 : (key == k) = false := by simpa using fun e => h e.symm
      simp only [lookupProp] at ih
      simp [setProp, h, lookupProp, List.lookup, h2, ih]

theorem lookupProp_setProp_other (props : Props) (key other : String) (value : JsValue)
    (h : key ≠ other) : lookupProp (setProp props key value) other = lookupProp props other := by
  induction props with
  | nil =>
    have h2 : (other == key) = false := by simpa using fun e => h e.symm
    simp [setProp, lookupProp, List.lookup, h2]
  | cons head rest ih =>
    obtain ⟨k, v⟩ := head
    simp only [lookupProp] at ih
    by_cases hk : k = key
    · subst hk
      have h2 : (other == k) = false := by simpa using fun e => h e.symm
      simp [setProp, lookupProp, List.lookup, h2]
    · by_cases ho : other = k
      · subst ho
        simp [setProp, hk, lookupProp, List.lookup]
      · have h2 : (other == k) = false := by simpa using ho
        simp [setProp, hk, lookupProp, List.lookup, h2, ih]

/-- The page number carried by the request for page `page`. -/
theorem page_of_pageRequest (url : String) (params : Props) (per_page : JsValue) (page : Nat) :
    lookupProp (pageRequest url params per_page page).params "page" = .number page := by
  simp only [pageRequest, pageParams]
  rw [lookupProp_setProp_other _ _ _ _ (by decide), lookupProp_setProp_same]

/-- The page size carried by the request for page `page`. -/
theorem per_page_of_pageRequest (url : String) (params : Props) (per_page : JsValue)
    (page : Nat) :
    lookupProp (pageRequest url params per_page page).params "per_page" = per_page := by
  simp only [pageRequest, pageParams]
  rw [lookupProp_setProp_same]

/-- The other query parameters of the call, carried by the request for page `page`. -/
theorem other_of_pageRequest (url : String) (params : Props) (per_page : JsValue)
    (page : Nat) (key : String) (h1 : key ≠ "page") (h2 : key ≠ "per_page") :
    lookupProp (pageRequest url params per_page page).params key = lookupProp params key := by
  simp only [pageRequest, pageParams]
  rw [lookupProp_setProp_other _ _ _ _ (fun e => h2 e.symm),
    lookupProp_setProp_other _ _ _ _ (fun e => h1 e.symm)]

theorem requestSummary_pageRequest (url : String) (params : Props) (per_page : JsValue)
    (page : Nat) :
    requestSummary (pageRequest url params per_page page)
      = (.GET, url, .number page, per_page) := by
  simp only [requestSummary, page_of_pageRequest, per_page_of_pageRequest]
  rfl

/-- The value of `params.per_page || 100` for a page size that is supplied, or is
100 and not supplied. -/
theorem perPageOf_of_query (params : Props) (per_page : Nat) (hpp : 1 ≤ per_page)
    (hparams : lookupProp params "per_page" = .number per_page
      ∨ (lookupProp params "per_page" = .undefined ∧ per_page = 100)) :
    perPageOf params = .number per_page := by
  rcases hparams with h | ⟨h, h100⟩
  · have hne : (per_page : Int) ≠ 0 := by omega
    simp [perPageOf, h, truthy, hne]
  · subst h100
    simp [perPageOf, h, truthy]

/-- The loop on a server that has `m` full pages left from `page` on and then a
short one, each page within the argument bound: it issues the `m + 1` requests in
order and returns everything. -/
theorem fetchAllPagesLoop_pages (maxArguments : Nat) (axios : Axios) (url : String)
    (params : Props) (per_page n : Nat) (pages : Nat → List JsValue)
    (hlimit : per_page ≤ maxArguments)
    (hserver : ∀ i, 1 ≤ i → i ≤ n + 1 →
      axios (pageRequest url params (.number per_page) i) = .ok ⟨.array (pages i)⟩)
    (hfull : ∀ i, 1 ≤ i → i ≤ n → (pages i).length = per_page)
    (hlast : (pages (n + 1)).length < per_page) :
    ∀ (m page fuel : Nat) (results : List JsValue) (requests : List Request),
      1 ≤ page → page + m = n + 1 → m + 1 ≤ fuel →
      fetchAllPagesLoop maxArguments axios url params (.number per_page) fuel results page
          requests =
        ⟨requests ++ (List.range' page (m + 1)).map (pageRequest url params (.number per_page)),
         some (.ok (results ++ (List.range' page (m + 1)).flatMap pages))⟩ := by
  intro m
  induction m with
  | zero =>
    intro page fuel results requests hpage hsum hfuel
    obtain ⟨fuel, rfl⟩ : ∃ f, fuel = f + 1 := ⟨fuel - 1, by omega⟩
    have hp : page = n + 1 := by omega
    subst hp
    have hs := hserver (n + 1) (by omega) (by omega)
    simp only [pageRequest] at hs
    have hne : ((pages (n + 1)).length : Int) ≠ (per_page : Int) := by
      intro h
      have := Int.ofNat.inj h
      omega
    have hfit : (pages (n + 1)).length ≤ maxArguments := by omega
    simp [fetchAllPagesLoop, CanvasClient.get, send, hs, spreadItems, spreadArguments, hfit,
      lengthOf, strictEq, hne, pageRequest, List.range'_succ]
  | succ m ih =>
    intro page fuel results requests hpage hsum hfuel
    obtain ⟨fuel, rfl⟩ : ∃ f, fuel = f + 1 := ⟨fuel - 1, by omega⟩
    have hs := hserver page hpage (by omega)
    simp only [pageRequest] at hs
    have hlen := hfull page hpage (by omega)
    have hfit : (pages page).length ≤ maxArguments := by omega
    have step := ih (page + 1) fuel (results ++ pages page)
      (requests ++ [pageRequest url params (.number per_page) page]) (by omega) (by omega) (by omega)
    rw [List.range'_succ page (m + 1)]
    simp only [pageRequest] at step
    simp [fetchAllPagesLoop, CanvasClient.get, send, hs, spreadItems, spreadArguments, hlimit,
      lengthOf, strictEq, hlen, pageRequest, step]

/-- One iteration of the loop on a page with more items than a call takes
arguments: `results.push(...data)` throws RangeError after the request. -/
theorem fetchAllPagesLoop_oversized (maxArguments : Nat) (axios : Axios) (url : String)
    (params : Props) (per_page : JsValue) (fuel page : Nat) (results : List JsValue)
    (requests : List Request) (items : List JsValue)
    (hserver : axios (pageRequest url params per_page page) = .ok ⟨.array items⟩)
    (hbig : maxArguments < items.length) :
    fetchAllPagesLoop maxArguments axios url params per_page (fuel + 1) results page requests =
      ⟨requests ++ [pageRequest url params per_page page],
       some (.error (.rangeError "Maximum call stack size exceeded"))⟩ := by
  simp only [pageRequest] at hserver
  have hnot : ¬ items.length ≤ maxArguments := by omega
  simp [fetchAllPagesLoop, CanvasClient.get, send, hserver, spreadItems, spreadArguments, hnot,
    pageRequest]

theorem hugePage_length : hugePage.length = 200000 :=
  List.length_replicate 200000 JsValue.null

/-- Sum of the lengths of `m` consecutive pages that all have `size` items. -/
theorem sum_lengths_full (pages : Nat → List JsValue) (size : Nat) :
    ∀ (m start : Nat), (∀ i, start ≤ i → i < start + m → (pages i).length = size) →
      ((List.range' start m).map (fun i => (pages i).length)).sum = m * size := by
  intro m
  induction m with
  | zero => intro start _; simp
  | succ m ih =>
    intro start h
    rw [List.range'_succ, List.map_cons, List.sum_cons, ih (start + 1) (fun i h1 h2 => h i (by omega) (by omega)),
      h start (by omega) (by omega)]
    ring

/-- The request count `⌈total / per_page⌉ + (1 if total % per_page = 0)` of a
listing of `n` full pages and a short page of `k` items is `n + 1`. -/
theorem request_count_formula (per_page n k : Nat) (hk : k < per_page) :
    (n * per_page + k + per_page - 1) / per_page
      + (if (n * per_page + k) % per_page = 0 then 1 else 0) = n + 1 := by
  have hmod : (n * per_page + k) % per_page = k := by
    rw [Nat.add_comm, Nat.add_mul_mod_self_right, Nat.mod_eq_of_lt hk]
  have e1 : (n + 1) * per_page = n * per_page + per_page := by ring
  have e2 : (n + 1 + 1) * per_page = n * per_page + per_page + per_page := by ring
  rw [hmod]
  by_cases h0 : k = 0
  · have : (n * per_page + k + per_page - 1) / per_page = n := by
      apply Nat.div_eq_of_lt_le
      · omega
      · show _ < (n + 1) * per_page
        omega
    rw [this, if_pos h0]
  · have : (n * per_page + k + per_page - 1) / per_page = n + 1 := by
      apply Nat.div_eq_of_lt_le
      · omega
      · show _ < (n + 1 + 1) * per_page
        omega
    simp [this, h0]

/-- The whole run on a server that sends `n` full pages and a short one, within the
argument bound. -/
theorem fetchAllPages_run (maxArguments : Nat) (axios : Axios) (url : String) (params : Props)
    (per_page n k fuel : Nat) (pages : Nat → List JsValue)
    (hpp : 1 ≤ per_page) (hlimit : per_page ≤ maxArguments)
    (hparams : lookupProp params "per_page" = .number per_page
      ∨ (lookupProp params "per_page" = .undefined ∧ per_page = 100))
    (hserver : ∀ (request : Request) (i : Nat), request.method = .GET → request.url = url →
      lookupProp request.params "page" = .number i →
      lookupProp request.params "per_page" = .number per_page →
      1 ≤ i → i ≤ n + 1 → axios request = .ok ⟨.array (pages i)⟩)
    (hfull : ∀ i, 1 ≤ i → i ≤ n → (pages i).length = per_page)
    (hlast : (pages (n + 1)).length = k) (hk : k < per_page)
    (hfuel : n + 1 ≤ fuel) :
    fetchAllPages maxArguments axios fuel url params
      = ⟨(List.range' 1 (n + 1)).map (pageRequest url params (.number per_page)),
         some (.ok ((List.range' 1 (n + 1)).flatMap pages))⟩ := by
  have hcode : ∀ i, 1 ≤ i → i ≤ n + 1 →
      axios (pageRequest url params (.number per_page) i) = .ok ⟨.array (pages i)⟩ :=
    fun i h1 h2 => hserver _ i rfl rfl (page_of_pageRequest _ _ _ _)
      (per_page_of_pageRequest _ _ _ _) h1 h2
  have h := fetchAllPagesLoop_pages maxArguments axios url params per_page n pages hlimit hcode
    hfull (by omega) n 1 fuel [] [] (by omega) (by omega) (by omega)
  simp [fetchAllPages, perPageOf_of_query params per_page hpp hparams, h]

/-- C1, amended: for every page size `per_page ≥ 1` that a call can take as arguments
(`per_page ≤ maxArguments`), supplied in the query or left out with the default of
100, and every server that answers pages `1 .. n` with exactly `per_page` items and
page `n + 1` with `k < per_page` items (`k = 0` included), `fetchAllPages` returns, on
any fuel of at least `n + 1` iterations, exactly `page 1 ++ page 2 ++ ... ++ page (n + 1)`. -/
theorem fetchAllPages_returns_concatenation (maxArguments : Nat) (axios : Axios) (url : String)
    (params : Props) (per_page n k fuel : Nat) (pages : Nat → List JsValue)
    (hpp : 1 ≤ per_page) (hlimit : per_page ≤ maxArguments)
    (hparams : lookupProp params "per_page" = .number per_page
      ∨ (lookupProp params "per_page" = .undefined ∧ per_page = 100))
    (hserver : ∀ (request : Request) (i : Nat), request.method = .GET → request.url = url →
      lookupProp request.params "page" = .number i →
      lookupProp request.params "per_page" = .number per_page →
      1 ≤ i → i ≤ n + 1 → axios request = .ok ⟨.array (pages i)⟩)
    (hfull : ∀ i, 1 ≤ i → i ≤ n → (pages i).length = per_page)
    (hlast : (pages (n + 1)).length = k) (hk : k < per_page)
    (hfuel : n + 1 ≤ fuel) :
    (fetchAllPages maxArguments axios fuel url params).outcome
      = some (.ok ((List.range' 1 (n + 1)).flatMap pages)) := by
  rw [fetchAllPages_run maxArguments axios url params per_page n k fuel pages hpp hlimit hparams
    hserver hfull hlast hk hfuel]

/-- C1, amended, at a sample listing fetched without `per_page` in the query: 103
items come in a page of 100 and a page of 3. -/
theorem fetchAllPages_returns_concatenation_witness :
    (fetchAllPages 65535 (pagedAxios 100 hundredPages) 2 "/api/v1/courses" []).outcome
      = some (.ok ((List.range' 1 2).flatMap hundredPages)) :=
  fetchAllPages_returns_concatenation 65535 (pagedAxios 100 hundredPages) "/api/v1/courses"
    [] 100 1 3 2 hundredPages (by decide) (by decide) (Or.inr ⟨rfl, rfl⟩)
    (by
      intro request i hm hu hp hpp h1 h2
      simp [pagedAxios, hm, hp, hpp])
    (by intro i h1 h2; interval_cases i; simp [hundredPages])
    rfl (by decide) (by decide)

/-- C1 as stated fails at `per_page = 200001` and a server whose only page has
200000 items, on an engine whose calls take fewer than 200000 arguments: after the
first request `results.push(...data)` throws RangeError, and nothing is returned. -/
theorem fetchAllPages_oversized_page_throws :
    (hugePages 1).length = 200000
    ∧ (fetchAllPages 199999 (pagedAxios 200001 hugePages) 1 "/api/v1/courses"
        [("per_page", .number 200001)]).outcome
      = some (.error (.rangeError "Maximum call stack size exceeded")) := by
  refine ⟨hugePage_length, ?_⟩
  have h := fetchAllPagesLoop_oversized 199999 (pagedAxios 200001 hugePages) "/api/v1/courses"
    [("per_page", .number 200001)] (.number 200001) 0 1 [] [] hugePage rfl
    (by rw [hugePage_length]; decide)
  have hper : perPageOf [("per_page", .number 200001)] = .number 200001 := rfl
  simp only [fetchAllPages, hper, h]

/-- C2, amended: on the same servers and page sizes (`per_page ≤ maxArguments`)
`fetchAllPages` terminates (on any fuel of at least `n + 1` iterations) having issued
exactly the GET requests for pages `1, 2, ..., n + 1` at this page size, in this
order, with the other query parameters of the call; their number is
`⌈total / per_page⌉ + (1 if total % per_page = 0 else 0)`, where `total` is the sum of
the page lengths and the ceiling is the ceiling division of natural numbers,
`(total + per_page - 1) / per_page`; a total that is a multiple of `per_page` costs
`total / per_page + 1` requests. -/
theorem fetchAllPages_request_count (maxArguments : Nat) (axios : Axios) (url : String)
    (params : Props) (per_page n k fuel : Nat) (pages : Nat → List JsValue)
    (hpp : 1 ≤ per_page) (hlimit : per_page ≤ maxArguments)
    (hparams : lookupProp params "per_page" = .number per_page
      ∨ (lookupProp params "per_page" = .undefined ∧ per_page = 100))
    (hserver : ∀ (request : Request) (i : Nat), request.method = .GET → request.url = url →
      lookupProp request.params "page" = .number i →
      lookupProp request.params "per_page" = .number per_page →
      1 ≤ i → i ≤ n + 1 → axios request = .ok ⟨.array (pages i)⟩)
    (hfull : ∀ i, 1 ≤ i → i ≤ n → (pages i).length = per_page)
    (hlast : (pages (n + 1)).length = k) (hk : k < per_page)
    (hfuel : n + 1 ≤ fuel) :
    (fetchAllPages maxArguments axios fuel url params).outcome.isSome = true
    ∧ (fetchAllPages maxArguments axios fuel url params).requests.map requestSummary
        = (List.range' 1 (n + 1)).map
            (fun page : Nat => (Method.GET, url, JsValue.number (page : Int),
              JsValue.number (per_page : Int)))
    ∧ (∀ request ∈ (fetchAllPages maxArguments axios fuel url params).requests,
        ∀ key : String, key ≠ "page" → key ≠ "per_page" →
          lookupProp request.params key = lookupProp params key)
    ∧ (fetchAllPages maxArguments axios fuel url params).requests.length
        = (totalItems pages (n + 1) + per_page - 1) / per_page
          + (if totalItems pages (n + 1) % per_page = 0 then 1 else 0)
    ∧ (totalItems pages (n + 1) % per_page = 0 →
        (fetchAllPages maxArguments axios fuel url params).requests.length
          = totalItems pages (n + 1) / per_page + 1) := by
  have hrun := fetchAllPages_run maxArguments axios url params per_page n k fuel pages hpp
    hlimit hparams hserver hfull hlast hk hfuel
  have htotal : totalItems pages (n + 1) = n * per_page + k := by
    unfold totalItems
    rw [List.range'_concat, List.map_append, List.sum_append,
      sum_lengths_full pages per_page n 1 (fun i h1 h2 => hfull i h1 (by omega))]
    simp [Nat.add_comm 1 n, hlast]
  have hcount := request_count_formula per_page n k hk
  rw [hrun, htotal]
  refine ⟨rfl, ?_, ?_, ?_, ?_⟩
  · simp only [List.map_map]
    apply List.map_congr_left
    intro i _
    exact requestSummary_pageRequest url params (.number per_page) i
  · intro request hmem key h1 h2
    simp only [List.mem_map] at hmem
    obtain ⟨i, _, rfl⟩ := hmem
    exact other_of_pageRequest url params (.number per_page) i key h1 h2
  · simp [hcount]
  · intro hzero
    have hmod : (n * per_page + k) % per_page = k := by
      rw [Nat.add_comm, Nat.add_mul_mod_self_right, Nat.mod_eq_of_lt hk]
    have hk0 : k = 0 := by omega
    subst hk0
    simp [Nat.mul_div_cancel n (by omega : 0 < per_page)]

/-- C2, amended, at a sample listing whose total is a multiple of the page size: four
items, two per page, cost three requests, the last one answered by an empty page. -/
theorem fetchAllPages_request_count_witness :
    (fetchAllPages 65535 (pagedAxios 2 evenPages) 7 "/api/v1/courses"
        [("per_page", .number 2)]).requests.map requestSummary
      = [(.GET, "/api/v1/courses", .number 1, .number 2),
         (.GET, "/api/v1/courses", .number 2, .number 2),
         (.GET, "/api/v1/courses", .number 3, .number 2)]
    ∧ (fetchAllPages 65535 (pagedAxios 2 evenPages) 7 "/api/v1/courses"
        [("per_page", .number 2)]).requests.length
      = (totalItems evenPages 3 + 2 - 1) / 2 + (if totalItems evenPages 3 % 2 = 0 then 1 else 0)
    ∧ (totalItems evenPages 3 + 2 - 1) / 2 + (if totalItems evenPages 3 % 2 = 0 then 1 else 0) = 3 :=
  have h := fetchAllPages_request_count 65535 (pagedAxios 2 evenPages) "/api/v1/courses"
    [("per_page", .number 2)] 2 2 0 7 evenPages (by decide) (by decide) (Or.inl rfl)
    (by
      intro request i hm hu hp hpp h1 h2
      simp [pagedAxios, hm, hp, hpp])
    (by intro i h1 h2; interval_cases i <;> rfl) rfl (by decide) (by decide)
  ⟨h.2.1, h.2.2.2.1, by decide⟩

/-- C2 as stated fails at `per_page = 200000` and a server that sends a full page of
200000 items and then an empty page, on an engine whose calls take fewer than 200000
arguments: the formula gives two requests, and the run ends after the first one,
when `results.push(...data)` throws RangeError. -/
theorem fetchAllPages_oversized_page_one_request :
    (hugePages 1).length = 200000
    ∧ (hugePages 2).length = 0
    ∧ (200000 + 200000 - 1) / 200000 + (if 200000 % 200000 = 0 then 1 else 0) = 2
    ∧ (fetchAllPages 199999 (pagedAxios 200000 hugePages) 2 "/api/v1/courses"
        [("per_page", .number 200000)]).requests.length = 1
    ∧ (fetchAllPages 199999 (pagedAxios 200000 hugePages) 2 "/api/v1/courses"
        [("per_page", .number 200000)]).outcome
      = some (.error (.rangeError "Maximum call stack size exceeded")) := by
  have h := fetchAllPagesLoop_oversized 199999 (pagedAxios 200000 hugePages) "/api/v1/courses"
    [("per_page", .number 200000)] (.number 200000) 1 1 [] [] hugePage rfl
    (by rw [hugePage_length]; decide)
  have hper : perPageOf [("per_page", .number 200000)] = .number 200000 := rfl
  refine ⟨hugePage_length, rfl, by decide, ?_, ?_⟩
  · simp only [fetchAllPages, hper, h]
    rfl
  · simp only [fetchAllPages, hper, h]

end Pagination

/-! ## Anonymization policy -/

section Anonymization

open CanvasClient JsValue

theorem returnAnonymized_policy (options : Props) (anonymize : JsValue → Except Raised JsValue)
    (call : Run JsValue) (d : JsValue) (h : call.outcome = .ok d) :
    AnonymizationPolicy options anonymize d (returnAnonymized options anonymize call).outcome := by
  constructor
  · intro hopt
    simp [returnAnonymized, h, hopt, strictEq]
  · intro hopt
    rcases hopt with hopt | hopt <;> simp [returnAnonymized, h, hopt, strictEq]

/-- C3: each of `listCourseAssignments`, `listStudents`, `listRubricAssessments`,
`listSectionAssignmentSubmissions` and `listAssignmentSubmissions`, for every raw
response `d` that its `get` returned, returns `d` unchanged when `options.anonymous`
is false, and the matching anonymizer's result on `d` when `options.anonymous` is
true or not supplied. -/
theorem anonymous_option_policy (anonymizer : DataAnonymizer) (axios : Axios)
    (courseId assignmentId sectionId : String) (params options : Props) :
    (∀ d, (get axios ("/api/v1/courses/" ++ courseId ++ "/assignments") params).outcome = .ok d →
      AnonymizationPolicy options anonymizer.anonymizeAssignments d
        (listCourseAssignments anonymizer axios courseId params options).outcome)
    ∧ (∀ d, (get axios ("/api/v1/courses/" ++ courseId ++ "/users") params).outcome = .ok d →
      AnonymizationPolicy options anonymizer.anonymizeUsers d
        (listStudents anonymizer axios courseId params options).outcome)
    ∧ (∀ d, (get axios
          ("/api/v1/courses/" ++ courseId ++ "/assignments/" ++ assignmentId ++ "/submissions")
          params).outcome = .ok d →
      AnonymizationPolicy options anonymizer.anonymizeSubmissions d
        (listRubricAssessments anonymizer axios courseId assignmentId params options).outcome)
    ∧ (∀ d, (get axios
          ("/api/v1/sections/" ++ sectionId ++ "/assignments/" ++ assignmentId ++ "/submissions")
          params).outcome = .ok d →
      AnonymizationPolicy options anonymizer.anonymizeSubmissions d
        (listSectionAssignmentSubmissions anonymizer axios sectionId assignmentId params
          options).outcome)
    ∧ (∀ d, (get axios
          ("/api/v1/courses/" ++ courseId ++ "/assignments/" ++ assignmentId ++ "/submissions")
          params).outcome = .ok d →
      AnonymizationPolicy options anonymizer.anonymizeSubmissions d
        (listAssignmentSubmissions anonymizer axios courseId assignmentId params options).outcome) :=
  ⟨fun d h => returnAnonymized_policy options _ _ d h,
   fun d h => returnAnonymized_policy options _ _ d h,
   fun d h => returnAnonymized_policy options _ _ d h,
   fun d h => returnAnonymized_policy options _ _ d h,
   fun d h => returnAnonymized_policy options _ _ d h⟩

/-- C3 at a sample response: `listStudents` hands the records over untouched with
`{anonymous: false}`, and anonymized with `{}` and with `{anonymous: true}`. -/
theorem anonymous_option_policy_witness :
    (listStudents sampleAnonymizer (fun _ => .ok ⟨sampleRecords⟩) "42" []
        [("anonymous", .bool false)]).outcome = .ok sampleRecords
    ∧ (listStudents sampleAnonymizer (fun _ => .ok ⟨sampleRecords⟩) "42" [] []).outcome
        = sampleAnonymizer.anonymizeUsers sampleRecords
    ∧ (listStudents sampleAnonymizer (fun _ => .ok ⟨sampleRecords⟩) "42" []
        [("anonymous", .bool true)]).outcome = sampleAnonymizer.anonymizeUsers sampleRecords :=
  ⟨((anonymous_option_policy sampleAnonymizer (fun _ => .ok ⟨sampleRecords⟩) "42" "1" "2" []
        [("anonymous", .bool false)]).2.1 sampleRecords rfl).1 rfl,
   ((anonymous_option_policy sampleAnonymizer (fun _ => .ok ⟨sampleRecords⟩) "42" "1" "2" []
        []).2.1 sampleRecords rfl).2 (Or.inr rfl),
   ((anonymous_option_policy sampleAnonymizer (fun _ => .ok ⟨sampleRecords⟩) "42" "1" "2" []
        [("anonymous", .bool true)]).2.1 sampleRecords rfl).2 (Or.inl rfl)⟩

end Anonymization

/-! ## Error normalization -/

section ErrorNormalizer

open CanvasClient JsValue

theorem stringify_of_truthy (E : JsValue) (h : E.truthy = true) :
    ∃ serialized, JSON.stringify E = some serialized := by
  cases E <;> simp [JSON.stringify, serializeJSON, truthy] at h ⊢

/-- Every transport method fails with whatever `handleError` raises. -/
theorem send_of_rejection (axios : Axios) (request : Request) (error : Thrown) (raised : Raised)
    (hreject : axios request = .error error) (hraise : handleError error = .error raised) :
    (send axios request).outcome = .error raised := by
  simp [send, hreject, hraise]

/-- The expression `error.response?.data?.errors` when the failure carries the body
`{errors: E}`. -/
theorem errors_of_errorBody (error : Thrown) (E : JsValue) (hbody : errorBody error = some E) :
    ∃ response, error.get "response" = .ok response
      ∧ (response.optGet "data").optGet "errors" = E := by
  unfold errorBody at hbody
  split at hbody
  · next response hresponse =>
    refine ⟨.object response, hresponse, ?_⟩
    split at hbody
    · next body hdata =>
      have h1 : (JsValue.object response).optGet "data" = .object body := by
        simp [optGet, isNullish, JsValue.prop, hdata]
      rw [h1]
      simp [optGet, isNullish, JsValue.prop, lookupProp, hbody]
    · cases hbody
  · cases hbody

/-- With a truthy `errors` body the first `throw` of `handleError` is taken. -/
theorem handleError_serializes (error : Thrown) (E : JsValue)
    (hbody : errorBody error = some E) (htruthy : E.truthy = true) :
    ∃ serialized, JSON.stringify E = some serialized
      ∧ handleError error = .error (.error serialized) := by
  obtain ⟨serialized, hser⟩ := stringify_of_truthy E htruthy
  obtain ⟨response, hresponse, herrors⟩ := errors_of_errorBody error E hbody
  refine ⟨serialized, hser, ?_⟩
  simp [handleError, hresponse, herrors, htruthy, hser, optString, newError, isUndefined, toStr]

/-- C4, amended: for every failure that carries a structured error body `{errors: E}`
with `E` truthy (any value but `undefined`, `null`, `false`, `0` and the empty string),
the error thrown by `handleError`, and hence by `get`, `post`, `put` and `delete`, has
the message `JSON.stringify(E)`. -/
theorem handleError_structured_body (error : Thrown) (E : JsValue)
    (hbody : errorBody error = some E) (htruthy : E.truthy = true) :
    ∃ serialized, JSON.stringify E = some serialized
      ∧ handleError error = .error (.error serialized)
      ∧ ∀ (axios : Axios) (url : String) (data : JsValue) (params : Props),
        (axios ⟨.GET, url, .undefined, params⟩ = .error error →
          (get axios url params).outcome = .error (.error serialized))
        ∧ (axios ⟨.POST, url, defaultArg data (.object []), params⟩ = .error error →
          (post axios url data params).outcome = .error (.error serialized))
        ∧ (axios ⟨.PUT, url, defaultArg data (.object []), params⟩ = .error error →
          (put axios url data params).outcome = .error (.error serialized))
        ∧ (axios ⟨.DELETE, url, .undefined, params⟩ = .error error →
          (delete axios url params).outcome = .error (.error serialized)) := by
  obtain ⟨serialized, hser, hraise⟩ := handleError_serializes error E hbody htruthy
  refine ⟨serialized, hser, hraise, ?_⟩
  intro axios url data params
  exact ⟨fun h => send_of_rejection axios _ error _ h hraise,
    fun h => send_of_rejection axios _ error _ h hraise,
    fun h => send_of_rejection axios _ error _ h hraise,
    fun h => send_of_rejection axios _ error _ h hraise⟩

/-- C4, amended, at a sample failure: a 422 response with the body
`{errors: [{message: "title is too long"}]}`. -/
theorem handleError_structured_body_witness :
    errorBody (axiosError (.object [("errors", sampleErrors)])) = some sampleErrors
    ∧ sampleErrors.truthy = true
    ∧ handleError (axiosError (.object [("errors", sampleErrors)]))
        = .error (.error "[\x7b\"message\":\"title is too long\"\x7d]") := by
  obtain ⟨serialized, hser, hraise, _⟩ :=
    handleError_structured_body (axiosError (.object [("errors", sampleErrors)])) sampleErrors
      rfl rfl
  have hval : JSON.stringify sampleErrors = some "[\x7b\"message\":\"title is too long\"\x7d]" := rfl
  rw [hval] at hser
  cases hser
  exact ⟨rfl, rfl, hraise⟩

/-- C4 as stated fails at `E = false` (and likewise at `E = ""`): the failure carries
the body `{errors: false}`, whose serialized form is `false`, and the error thrown has
the message of the axios failure instead. -/
theorem handleError_falsy_body_not_serialized :
    errorBody (axiosError (.object [("errors", .bool false)])) = some (.bool false)
    ∧ JSON.stringify (.bool false) = some "false"
    ∧ handleError (axiosError (.object [("errors", .bool false)]))
        = .error (.error "Request failed with status code 422")
    ∧ (get (failingAxios (axiosError (.object [("errors", .bool false)]))) "/api/v1/courses"
        []).outcome = .error (.error "Request failed with status code 422")
    ∧ Raised.error "Request failed with status code 422" ≠ Raised.error "false"
    ∧ errorBody (axiosError (.object [("errors", .string "")])) = some (.string "")
    ∧ JSON.stringify (.string "") = some "\"\""
    ∧ handleError (axiosError (.object [("errors", .string "")]))
        = .error (.error "Request failed with status code 422") :=
  ⟨rfl, rfl, rfl, rfl, by decide, rfl, rfl, rfl⟩

/-- The expression `error.response?.data?.errors` is falsy when the failure carries
no structured error body. -/
theorem errors_of_no_errorBody (error : Thrown) (response : JsValue)
    (hget : error.get "response" = .ok response) (hbody : errorBody error = none) :
    ((response.optGet "data").optGet "errors").truthy = false := by
  unfold errorBody at hbody
  rw [hget] at hbody
  cases response with
  | object fields =>
    simp only [optGet, isNullish, JsValue.prop] at hbody ⊢
    generalize lookupProp fields "data" = d at hbody ⊢
    cases d with
    | object body =>
      simp only [Bool.false_eq_true, if_false] at hbody ⊢
      simp [lookupProp, hbody, truthy]
    | _ => simp [truthy]
  | _ => simp [optGet, isNullish, JsValue.prop, truthy]

/-- C5: for every failure that is an Error with the message `m` and carries no
structured error body, the error thrown by `handleError`, and hence by `get`,
`post`, `put` and `delete`, has exactly the message `m`. -/
theorem handleError_plain_message (m : String) (props : Props)
    (hbody : errorBody (.error m props) = none) :
    handleError (.error m props) = .error (.error m)
    ∧ ∀ (axios : Axios) (url : String) (data : JsValue) (params : Props),
        (axios ⟨.GET, url, .undefined, params⟩ = .error (.error m props) →
          (get axios url params).outcome = .error (.error m))
        ∧ (axios ⟨.POST, url, defaultArg data (.object []), params⟩ = .error (.error m props) →
          (post axios url data params).outcome = .error (.error m))
        ∧ (axios ⟨.PUT, url, defaultArg data (.object []), params⟩ = .error (.error m props) →
          (put axios url data params).outcome = .error (.error m))
        ∧ (axios ⟨.DELETE, url, .undefined, params⟩ = .error (.error m props) →
          (delete axios url params).outcome = .error (.error m)) := by
  have hget : (Thrown.error m props).get "response" = .ok (lookupProp props "response") := by
    simp [Thrown.get]
  have hfalsy := errors_of_no_errorBody _ _ hget hbody
  have hraise : handleError (.error m props) = .error (.error m) := by
    simp only [handleError, hget, hfalsy]
    simp [Thrown.instanceofError, Thrown.get, newError, isUndefined, toStr]
  refine ⟨hraise, ?_⟩
  intro axios url data params
  exact ⟨fun h => send_of_rejection axios _ _ _ h hraise,
    fun h => send_of_rejection axios _ _ _ h hraise,
    fun h => send_of_rejection axios _ _ _ h hraise,
    fun h => send_of_rejection axios _ _ _ h hraise⟩

/-- C5 at a sample failure: a refused connection. -/
theorem handleError_plain_message_witness :
    errorBody networkError = none
    ∧ handleError networkError = .error (.error "connect ECONNREFUSED 127.0.0.1:443")
    ∧ (get (failingAxios networkError) "/api/v1/courses" []).outcome
        = .error (.error "connect ECONNREFUSED 127.0.0.1:443") :=
  ⟨rfl,
   (handleError_plain_message "connect ECONNREFUSED 127.0.0.1:443"
      [("code", .string "ECONNREFUSED")] rfl).1,
   ((handleError_plain_message "connect ECONNREFUSED 127.0.0.1:443"
      [("code", .string "ECONNREFUSED")] rfl).2 (failingAxios networkError) "/api/v1/courses"
      .undefined []).1 rfl⟩

/-- On every caught value other than `null` and `undefined`, `handleError` throws one
`new Error` whose message is the serialized `errors` body, the caught Error's message,
or the fixed sentinel. -/
theorem handleError_three_kinds (error : Thrown)
    (hnull : error ≠ .value .null) (hundef : error ≠ .value .undefined) :
    ∃ message, handleError error = .error (.error message)
      ∧ ((∃ E, errorBody error = some E ∧ E.truthy = true ∧ JSON.stringify E = some message)
        ∨ (∃ props, error = .error message props)
        ∨ message = "Unknown error occurred in CanvasClient") := by
  obtain ⟨response, hget⟩ : ∃ response, error.get "response" = .ok response := by
    cases error with
    | error m props => exact ⟨_, rfl⟩
    | value v =>
      cases v with
      | null => exact absurd rfl hnull
      | undefined => exact absurd rfl hundef
      | _ => exact ⟨_, rfl⟩
  cases hbody : errorBody error with
  | some E =>
    by_cases htruthy : E.truthy = true
    · obtain ⟨serialized, hser, hraise⟩ := handleError_serializes error E hbody htruthy
      exact ⟨serialized, hraise, Or.inl ⟨E, rfl, htruthy, hser⟩⟩
    · obtain ⟨response2, hget2, herrors⟩ := errors_of_errorBody error E hbody
      rw [hget] at hget2
      cases hget2
      cases error with
      | error m props =>
        refine ⟨m, ?_, Or.inr (Or.inl ⟨props, rfl⟩)⟩
        simp only [handleError, hget, herrors, htruthy]
        simp [Thrown.instanceofError, Thrown.get, newError, isUndefined, toStr]
      | value v =>
        refine ⟨_, ?_, Or.inr (Or.inr rfl)⟩
        simp only [handleError, hget, herrors, htruthy]
        simp [Thrown.instanceofError, newError, isUndefined, toStr]
  | none =>
    have hfalsy := errors_of_no_errorBody error response hget hbody
    cases error with
    | error m props =>
      refine ⟨m, ?_, Or.inr (Or.inl ⟨props, rfl⟩)⟩
      simp only [handleError, hget, hfalsy]
      simp [Thrown.instanceofError, Thrown.get, newError, isUndefined, toStr]
    | value v =>
      refine ⟨_, ?_, Or.inr (Or.inr rfl)⟩
      simp only [handleError, hget, hfalsy]
      simp [Thrown.instanceofError, newError, isUndefined, toStr]

/-- C6 at the failing input: when the axios call rejects with `null` (or with
`undefined`), `handleError` does not reach any of its three `throw` statements: reading
`error.response` raises a TypeError, and that is what `get`, `post`, `put` and `delete`
reject with. -/
theorem handleError_null_raises_typeError :
    handleError (.value .null)
      = .error (.typeError "Cannot read properties of null (reading \x27response\x27)")
    ∧ (get (failingAxios (.value .null)) "/api/v1/courses" []).outcome
      = .error (.typeError "Cannot read properties of null (reading \x27response\x27)")
    ∧ (post (failingAxios (.value .null)) "/api/v1/courses/1/assignments" (.object []) []).outcome
      = .error (.typeError "Cannot read properties of null (reading \x27response\x27)")
    ∧ (put (failingAxios (.value .null)) "/api/v1/courses/1/assignments/2" (.object []) []).outcome
      = .error (.typeError "Cannot read properties of null (reading \x27response\x27)")
    ∧ (delete (failingAxios (.value .null)) "/api/v1/courses/1" []).outcome
      = .error (.typeError "Cannot read properties of null (reading \x27response\x27)")
    ∧ handleError (.value .undefined)
      = .error (.typeError "Cannot read properties of undefined (reading \x27response\x27)") :=
  ⟨rfl, rfl, rfl, rfl, rfl, rfl⟩

end ErrorNormalizer

/-! ## Request paths -/

section Paths

open CanvasClient JsValue

theorem hexDigitUpper_unreserved (d : Nat) : uriUnreserved (hexDigitUpper d) = true := by
  by_cases h : d < 16
  · interval_cases d <;> decide
  · have : hexDigitUpper d = '0' := by
      unfold hexDigitUpper
      exact List.getD_eq_default _ _ (by simp; omega)
    rw [this]
    decide

/-- Percent-encoding writes unreserved characters and `%` only. -/
theorem encodeURIComponent_chars (text : String) (c : Char)
    (h : c ∈ (encodeURIComponent text).data) : uriUnreserved c = true ∨ c = '%' := by
  simp only [encodeURIComponent, List.mem_flatMap] at h
  obtain ⟨x, _, hc⟩ := h
  unfold encodeURIChar at hc
  split at hc
  · next hx =>
    simp only [List.mem_singleton] at hc
    subst hc
    exact Or.inl hx
  · simp only [List.mem_flatMap] at hc
    obtain ⟨b, _, hb⟩ := hc
    simp only [percentByte, List.mem_cons, List.mem_singleton] at hb
    rcases hb with hb | hb | hb | hb
    · exact Or.inr hb
    · exact Or.inl (hb ▸ hexDigitUpper_unreserved _)
    · exact Or.inl (hb ▸ hexDigitUpper_unreserved _)
    · simp at hb

theorem encodeURIComponent_no_slash (text : String) : '/' ∉ (encodeURIComponent text).data := by
  intro h
  rcases encodeURIComponent_chars text '/' h with h | h
  · exact absurd h (by decide)
  · exact absurd h (by decide)

theorem encodeURIComponent_no_question_mark (text : String) :
    '?' ∉ (encodeURIComponent text).data := by
  intro h
  rcases encodeURIComponent_chars text '?' h with h | h
  · exact absurd h (by decide)
  · exact absurd h (by decide)

theorem slashCount_append (a b : String) : slashCount (a ++ b) = slashCount a + slashCount b := by
  simp [slashCount, List.count_append]

theorem slashCount_encodeURIComponent (text : String) :
    slashCount (encodeURIComponent text) = 0 := by
  simp only [slashCount]
  exact List.count_eq_zero.mpr (encodeURIComponent_no_slash text)

/-- Percent-encoding leaves an identifier of unreserved characters as it is. -/
theorem encodeURIComponent_unreservedOnly (identifier : String)
    (h : unreservedOnly identifier = true) : encodeURIComponent identifier = identifier := by
  obtain ⟨chars⟩ := identifier
  simp only [unreservedOnly] at h
  simp only [encodeURIComponent]
  congr 1
  induction chars with
  | nil => rfl
  | cons c rest ih =>
    simp only [List.all_cons, Bool.and_eq_true] at h
    simp [List.flatMap_cons, encodeURIChar, h.1, ih h.2]

/-- C7: `getPage`, `listPageRevisions`, `revertPageRevision` and `updateOrCreatePage`
put `encodeURIComponent(pageUrl)` into the request path; the encoded identifier has
no `/`, so the number of path separators is the same for every page identifier;
`syllabus/v2` is written `syllabus%2Fv2`. -/
theorem page_identifier_percent_encoded (axios : Axios) (courseId pageUrl revisionId : String)
    (data : JsValue) :
    requestUrls (getPage axios courseId pageUrl)
      = ["/api/v1/courses/" ++ courseId ++ "/pages/" ++ encodeURIComponent pageUrl]
    ∧ requestUrls (listPageRevisions axios courseId pageUrl)
      = ["/api/v1/courses/" ++ courseId ++ "/pages/" ++ encodeURIComponent pageUrl
          ++ "/revisions"]
    ∧ requestUrls (revertPageRevision axios courseId pageUrl revisionId)
      = ["/api/v1/courses/" ++ courseId ++ "/pages/" ++ encodeURIComponent pageUrl
          ++ "/revisions/" ++ revisionId ++ "/revert"]
    ∧ requestUrls (updateOrCreatePage axios courseId pageUrl data)
      = ["/api/v1/courses/" ++ courseId ++ "/pages/" ++ encodeURIComponent pageUrl]
    ∧ '/' ∉ (encodeURIComponent pageUrl).data
    ∧ (∀ other : String,
        (requestUrls (getPage axios courseId pageUrl)).map slashCount
          = (requestUrls (getPage axios courseId other)).map slashCount
        ∧ (requestUrls (listPageRevisions axios courseId pageUrl)).map slashCount
          = (requestUrls (listPageRevisions axios courseId other)).map slashCount
        ∧ (requestUrls (revertPageRevision axios courseId pageUrl revisionId)).map slashCount
          = (requestUrls (revertPageRevision axios courseId other revisionId)).map slashCount
        ∧ (requestUrls (updateOrCreatePage axios courseId pageUrl data)).map slashCount
          = (requestUrls (updateOrCreatePage axios courseId other data)).map slashCount)
    ∧ encodeURIComponent "syllabus/v2" = "syllabus%2Fv2"
    ∧ requestUrls (getPage axios courseId "syllabus/v2")
      = ["/api/v1/courses/" ++ courseId ++ "/pages/" ++ "syllabus%2Fv2"] := by
  refine ⟨rfl, rfl, rfl, rfl, encodeURIComponent_no_slash pageUrl, ?_, by decide, ?_⟩
  · intro other
    simp [requestUrls, getPage, listPageRevisions, revertPageRevision, updateOrCreatePage,
      CanvasClient.get, post, put, send, slashCount_append, slashCount_encodeURIComponent]
  · have h : encodeURIComponent "syllabus/v2" = "syllabus%2Fv2" := by decide
    simp [requestUrls, getPage, CanvasClient.get, send, h]

/-- C8, amended: every Domain Operation writes the course, assignment, module,
section, user and revision id into its path as given, and percent-encodes only the
page identifier (and the rubric id of the query string); so each identifier stands
in its percent-encoded form whenever it consists of unreserved characters. -/
theorem identifiers_interpolated_verbatim (anonymizer : DataAnonymizer) (axios : Axios)
    (courseId assignmentId moduleId sectionId userId revisionId pageUrl rubricId : String)
    (params options : Props) (data : JsValue) :
    domainOperationUrls anonymizer axios courseId assignmentId moduleId sectionId userId
        revisionId pageUrl rubricId params options data
      = pathTemplates (fun identifier => identifier) courseId assignmentId moduleId sectionId
          userId revisionId pageUrl rubricId
    ∧ (unreservedOnly courseId = true → unreservedOnly assignmentId = true →
        unreservedOnly moduleId = true → unreservedOnly sectionId = true →
        unreservedOnly userId = true → unreservedOnly revisionId = true →
        domainOperationUrls anonymizer axios courseId assignmentId moduleId sectionId userId
            revisionId pageUrl rubricId params options data
          = pathTemplates encodeURIComponent courseId assignmentId moduleId sectionId
              userId revisionId pageUrl rubricId) := by
  refine ⟨rfl, ?_⟩
  intro hc ha hm hs hu hr
  simp only [pathTemplates, encodeURIComponent_unreservedOnly _ hc,
    encodeURIComponent_unreservedOnly _ ha, encodeURIComponent_unreservedOnly _ hm,
    encodeURIComponent_unreservedOnly _ hs, encodeURIComponent_unreservedOnly _ hu,
    encodeURIComponent_unreservedOnly _ hr]
  rfl

/-- C8, amended, at numeric ids and the page identifier `syllabus/v2`. -/
theorem identifiers_interpolated_verbatim_witness :
    domainOperationUrls sampleAnonymizer (failingAxios networkError) "101" "202" "303" "404"
        "505" "6" "syllabus/v2" "77" [] [] .undefined
      = pathTemplates encodeURIComponent "101" "202" "303" "404" "505" "6" "syllabus/v2" "77" :=
  (identifiers_interpolated_verbatim sampleAnonymizer (failingAxios networkError) "101" "202"
    "303" "404" "505" "6" "syllabus/v2" "77" [] [] .undefined).2
    (by decide) (by decide) (by decide) (by decide) (by decide) (by decide)

/-- C8 as stated fails at the course id `1/2` and the assignment id `3?x=1`:
`getAssignment` requests a path with one more segment and a query string, where the
percent-encoded identifiers would be `1%2F2` and `3%3Fx%3D1`. -/
theorem getAssignment_identifier_not_encoded :
    requestUrls (getAssignment (failingAxios networkError) "1/2" "3?x=1")
      = ["/api/v1/courses/1/2/assignments/3?x=1"]
    ∧ encodeURIComponent "1/2" = "1%2F2"
    ∧ encodeURIComponent "3?x=1" = "3%3Fx%3D1"
    ∧ requestUrls (getAssignment (failingAxios networkError) "1/2" "3?x=1")
      ≠ ["/api/v1/courses/" ++ encodeURIComponent "1/2" ++ "/assignments/"
          ++ encodeURIComponent "3?x=1"]
    ∧ slashCount "/api/v1/courses/1/2/assignments/3?x=1"
      = slashCount ("/api/v1/courses/" ++ encodeURIComponent "1/2" ++ "/assignments/"
          ++ encodeURIComponent "3?x=1") + 1
    ∧ domainOperationUrls sampleAnonymizer (failingAxios networkError) "1/2" "3?x=1" "4" "5" "6"
        "7" "home" "8" [] [] .undefined
      ≠ pathTemplates encodeURIComponent "1/2" "3?x=1" "4" "5" "6" "7" "home" "8" := by
  refine ⟨rfl, by decide, by decide, by decide, by decide, ?_⟩
  intro h
  have h3 := congrArg (fun urls => urls.getD 3 []) h
  revert h3
  decide

end Paths

/-! ## Tool handlers -/

section Handlers

open CanvasClient JsValue

/-- C9: for every combination of supplied and absent `posted_grade`, `score`,
`rubric_assessment` and `comment`, the grade-submission handler issues one PUT to
`/api/v1/courses/{courseId}/assignments/{assignmentId}/submissions/{userId}` whose body
has exactly one key per supplied argument: the three values as supplied, the comment
as `{text_comment: comment}`; with only `score = 95` the body is `{score: 95}`. -/
theorem grade_submission_body (axios : Axios) (courseId assignmentId userId : String)
    (posted_grade score rubric_assessment comment : JsValue) :
    (gradeSubmissionHandler axios courseId assignmentId userId posted_grade score
        rubric_assessment comment).requests
      = [⟨.PUT,
          "/api/v1/courses/" ++ courseId ++ "/assignments/" ++ assignmentId ++ "/submissions/"
            ++ userId,
          .object (suppliedBody posted_grade score rubric_assessment comment), []⟩]
    ∧ lookupProp (suppliedBody posted_grade score rubric_assessment comment) "posted_grade"
        = posted_grade
    ∧ lookupProp (suppliedBody posted_grade score rubric_assessment comment) "score" = score
    ∧ lookupProp (suppliedBody posted_grade score rubric_assessment comment) "rubric_assessment"
        = rubric_assessment
    ∧ lookupProp (suppliedBody posted_grade score rubric_assessment comment) "comment"
        = (if comment.isUndefined then .undefined else .object [("text_comment", comment)])
    ∧ (suppliedBody posted_grade score rubric_assessment comment).length
        = (if posted_grade.isUndefined then 0 else 1) + (if score.isUndefined then 0 else 1)
          + (if rubric_assessment.isUndefined then 0 else 1)
          + (if comment.isUndefined then 0 else 1)
    ∧ (gradeSubmissionHandler axios courseId assignmentId userId .undefined (.number 95)
        .undefined .undefined).requests
      = [⟨.PUT,
          "/api/v1/courses/" ++ courseId ++ "/assignments/" ++ assignmentId ++ "/submissions/"
            ++ userId,
          .object [("score", .number 95)], []⟩] := by
  have hcase : ∀ v : JsValue, v = .undefined ∨ v.isUndefined = false := by
    intro v
    cases v <;> simp [isUndefined]
  have hu : JsValue.undefined.isUndefined = true := rfl
  have ho : ∀ props, (JsValue.object props).isUndefined = false := fun _ => rfl
  refine ⟨?_, ?_, ?_, ?_, ?_, ?_, rfl⟩
  all_goals
    rcases hcase posted_grade with rfl | h1 <;>
    rcases hcase score with rfl | h2 <;>
    rcases hcase rubric_assessment with rfl | h3 <;>
    rcases hcase comment with rfl | h4 <;>
    simp [gradeSubmissionHandler, gradeSubmission, put, send, defaultArg, hu, ho, setProp,
      suppliedBody, lookupProp, List.lookup, *]

theorem get_of_not_nullish (v : JsValue) (key : String) (h : v.isNullish = false) :
    v.get key = .ok (v.prop key) := by
  cases v <;> simp [isNullish] at h <;> rfl

theorem not_nullish_of_truthy (v : JsValue) (h : v.truthy = true) : v.isNullish = false := by
  cases v <;> simp [truthy] at h <;> rfl

/-- The `.map` callback on a course record writes its text block. -/
theorem formatCourse_eq (course : JsValue) (h : course.isNullish = false) :
    formatCourse course = .ok (courseBlock course) := by
  unfold formatCourse
  simp only [get_of_not_nullish course _ h]
  by_cases hterm : (course.prop "term").truthy = true
  · simp only [hterm, if_true, get_of_not_nullish _ "name" (not_nullish_of_truthy _ hterm)]
    simp [courseBlock, hasTerm, hterm, specBlock]
  · simp only [hterm]
    simp [courseBlock, hasTerm, hterm, termlessBlock]

theorem filterAvailable_eq (courses : List JsValue)
    (h : ∀ course ∈ courses, course.isNullish = false) :
    filterAvailable courses = .ok (courses.filter isActive) := by
  induction courses with
  | nil => rfl
  | cons course rest ih =>
    have hrest := ih (fun c hc => h c (List.mem_cons_of_mem _ hc))
    have hcourse := h course (List.mem_cons_self _ _)
    simp only [filterAvailable, isAvailable, get_of_not_nullish course _ hcourse, hrest]
    by_cases hactive : isActive course = true
    · have h2 : (course.prop "workflow_state").strictEq (.string "available") = true := hactive
      simp [List.filter_cons, hactive, h2]
    · have h2 : ¬ (course.prop "workflow_state").strictEq (.string "available") = true := hactive
      simp [List.filter_cons, hactive, h2]

theorem mapFormat_eq (courses : List JsValue)
    (h : ∀ course ∈ courses, course.isNullish = false) :
    mapFormat courses = .ok (courses.map courseBlock) := by
  induction courses with
  | nil => rfl
  | cons course rest ih =>
    have hrest := ih (fun c hc => h c (List.mem_cons_of_mem _ hc))
    have hcourse := h course (List.mem_cons_self _ _)
    simp [mapFormat, formatCourse_eq course hcourse, hrest]

theorem intercalate_go_ne_empty (sep : String) (blocks : List String) :
    ∀ acc : String, acc ≠ "" → String.intercalate.go acc sep blocks ≠ "" := by
  induction blocks with
  | nil => intro acc h; simpa [String.intercalate.go] using h
  | cons b rest ih =>
    intro acc h
    simp only [String.intercalate.go]
    apply ih
    intro hempty
    apply h
    have hdata := congrArg String.data hempty
    simp only [String.data_append, List.append_eq_nil] at hdata
    exact String.ext hdata.1.1

theorem courseBlock_ne_empty (course : JsValue) : courseBlock course ≠ "" := by
  intro h
  have hdata := congrArg String.data h
  unfold courseBlock at hdata
  split at hdata <;>
    simp [specBlock, termlessBlock, String.data_append] at hdata

/-- The joined text blocks are empty only when there is no block. -/
theorem joined_blocks_empty_iff (courses : List JsValue) :
    String.intercalate "\n" (courses.map courseBlock) = "" ↔ courses = [] := by
  constructor
  · intro h
    cases courses with
    | nil => rfl
    | cons course rest =>
      exact absurd h (intercalate_go_ne_empty "\n" _ _ (courseBlock_ne_empty course))
  · intro h
    subst h
    rfl

/-- C10, amended: for every list of course records that the server returns to the
`list-courses` tool, the output lists the active courses only (those whose
`workflow_state` is `available`), in the server's order, under the heading
`Available Courses:`; each is rendered as `Course: <name> (<term>)\nID: <id>\nCode: <code>`
when it has a term and as `Course: <name>\nID: <id>\nCode: <code>` when it has none, and
closed by a line `---`; when no course is active the output is
`No active courses found.`. -/
theorem list_courses_output (axios : Axios) (courses : List JsValue)
    (hserver : axios ⟨.GET, "/api/v1/courses", .undefined, listCoursesQuery⟩
      = .ok ⟨.array courses⟩)
    (hrecords : ∀ course ∈ courses, course.isNullish = false) :
    (listCoursesHandler axios).outcome
      = .ok (textContent (.string
          (if (courses.filter isActive).isEmpty then "No active courses found."
           else "Available Courses:\n\n"
            ++ String.intercalate "\n" ((courses.filter isActive).map courseBlock))))
    ∧ (∀ course ∈ courses.filter isActive, hasTerm course = true →
        courseBlock course
          = specBlock (course.prop "name").toStr ((course.prop "term").prop "name").toStr
              (course.prop "id").toStr (course.prop "course_code").toStr ++ "\n---")
    ∧ (∀ course ∈ courses.filter isActive, hasTerm course = false →
        courseBlock course
          = termlessBlock (course.prop "name").toStr (course.prop "id").toStr
              (course.prop "course_code").toStr ++ "\n---") := by
  refine ⟨?_, ?_, ?_⟩
  · have hkept : ∀ course ∈ courses.filter isActive, course.isNullish = false :=
      fun c hc => hrecords c (List.mem_of_mem_filter hc)
    have hs : axios ⟨.GET, "/api/v1/courses", .undefined,
        [("enrollment_state", .string "active"), ("state", .array [.string "available"]),
         ("per_page", .number 100), ("include", .array [.string "term"])]⟩
        = .ok ⟨.array courses⟩ := hserver
    have hformat : formatCourses (.array courses)
        = .ok (textContent (.string
          (if (courses.filter isActive).isEmpty then "No active courses found."
           else "Available Courses:\n\n"
            ++ String.intercalate "\n" ((courses.filter isActive).map courseBlock)))) := by
      simp only [formatCourses, filterReceiver, filterAvailable_eq courses hrecords,
        mapFormat_eq _ hkept]
      by_cases hnone : courses.filter isActive = []
      · simp [hnone, String.intercalate]
      · have hne := (joined_blocks_empty_iff (courses.filter isActive)).not.mpr hnone
        simp [hnone, hne]
    simp only [listCoursesHandler, listCourses, CanvasClient.get, send, hs, hformat]
  · intro course _ hterm
    simp [courseBlock, hterm]
  · intro course _ hterm
    simp [courseBlock, hterm]

/-- C10, amended, at the spec's scenario and beyond: one page of an active course
with a term, a concluded course and an active course without a term. -/
theorem list_courses_output_witness :
    (listCoursesHandler (fun _ => .ok ⟨.array [fallCourse, concludedCourse, termlessCourse]⟩)).outcome
      = .ok (textContent (.string
          ("Available Courses:\n\n"
            ++ "Course: Intro to Logic (Fall)\nID: 1\nCode: PHIL-1\n---\n"
            ++ "Course: Algebra\nID: 3\nCode: MATH-3\n---"))) :=
  (list_courses_output (fun _ => .ok ⟨.array [fallCourse, concludedCourse, termlessCourse]⟩)
    [fallCourse, concludedCourse, termlessCourse] rfl
    (by intro course h; simp at h; rcases h with h | h | h <;> subst h <;> rfl)).1

/-- C10 as stated fails at an active course that carries no term: its block is
`Course: Algebra\nID: 3\nCode: MATH-3`, and the output has no parenthesis at all, so
nothing of the form `Course: <name> (<term>)`. -/
theorem list_courses_termless_course :
    (listCoursesHandler (fun _ => .ok ⟨.array [termlessCourse]⟩)).outcome
      = .ok (textContent (.string
          "Available Courses:\n\nCourse: Algebra\nID: 3\nCode: MATH-3\n---"))
    ∧ '(' ∉ "Available Courses:\n\nCourse: Algebra\nID: 3\nCode: MATH-3\n---".data
    ∧ '(' ∈ (specBlock "Algebra" "" "3" "MATH-3").data :=
  ⟨rfl, by decide, by decide⟩

end Handlers

end CanvasMcp
